import Mathlib

/-!
# Verification of the ServiceNow MCP authentication and request-normalization layer

This development shallowly embeds the credential resolver
(`servicenow_mcp/auth/auth_manager.py`) and the per-entity tool modules
(`servicenow_mcp/tools/{epic,story,project,scrum_task}_tools.py`) and proves
properties of the embedded definitions.

Modelling conventions:
* Python dictionaries are association lists (`List (String × _)`); insertion
  follows Python semantics (overwrite in place if the key exists, else append).
* Python `None` / optional attributes are `Option`; Python truthiness of a
  string option (`if not x`) is `strTruthy` (present and non-empty).
* The HTTP transport (`requests`) is a function parameter; a raised
  `requests.exceptions.RequestException` (including `raise_for_status`) is the
  `requestError` outcome, and a 2xx response carries its parsed JSON body.
* A Python exception escaping a function is `Except.error`; a normal return is
  `Except.ok`.
-/

namespace SnowMCP

set_option autoImplicit false

/-- Python truthiness of an optional string: `if x:` is true exactly when the
value is present and non-empty. -/
def strTruthy : Option String → Bool
  | none => false
  | some s => !s.isEmpty

/-- Python truthiness of an optional integer: present and non-zero. -/
def intTruthy : Option Int → Bool
  | none => false
  | some n => n != 0

/-- Python `f"{x}"` on an optional string: `None` prints as `"None"`. -/
def pyStrOpt : Option String → String
  | none => "None"
  | some s => s

/-- The base64 alphabet, as used by `base64.b64encode`. -/
def base64Chars : List Char :=
  "ABCDEFGHIJKLMNOPQRSTUVWXYZabcdefghijklmnopqrstuvwxyz0123456789+/".toList

/-- The `n`-th base64 digit. -/
def b64CharAt (n : Nat) : Char := base64Chars.getD n 'A'

/-- Standard base64 of a byte list (values `< 256`), with `=` padding, as
computed by Python's `base64.b64encode`. -/
def base64EncodeBytes : List Nat → String
  | [] => ""
  | [a] =>
      String.mk [b64CharAt (a / 4), b64CharAt (a % 4 * 16), '=', '=']
  | [a, b] =>
      String.mk [b64CharAt (a / 4), b64CharAt (a % 4 * 16 + b / 16),
                 b64CharAt (b % 16 * 4), '=']
  | a :: b :: c :: rest =>
      String.mk [b64CharAt (a / 4), b64CharAt (a % 4 * 16 + b / 16),
                 b64CharAt (b % 16 * 4 + c / 64), b64CharAt (c % 64)]
        ++ base64EncodeBytes rest

/-- The UTF-8 encoding of one character, as byte values. -/
def utf8Bytes (c : Char) : List Nat :=
  let n := c.toNat
  if n < 128 then [n]
  else if n < 2048 then [192 + n / 64, 128 + n % 64]
  else if n < 65536 then [224 + n / 4096, 128 + n / 64 % 64, 128 + n % 64]
  else [240 + n / 262144, 128 + n / 4096 % 64, 128 + n / 64 % 64, 128 + n % 64]

/-- `base64.b64encode(s.encode()).decode()`: base64 of the UTF-8 bytes of `s`. -/
def base64Encode (s : String) : String :=
  base64EncodeBytes (s.toList.flatMap utf8Bytes)

/-! ## Authentication configuration

Modelled from the spec: the `AuthConfig` tagged union of §3 ("Basic{username,
password}, OAuth{client_id, client_secret, token_url?, username?, password?},
ApiKey{header_name, api_key}").  The defining module
`servicenow_mcp/utils/config.py` is not among the provided sources; the field
names and optionality below follow the spec and the uses in
`auth_manager.py`. -/

/-- Modelled from the spec: basic-credential payload (`BasicAuthConfig`). -/
structure BasicAuthConfig where
  username : String
  password : String
deriving DecidableEq, Repr

/-- Modelled from the spec: OAuth payload (`OAuthConfig`), with optional token
URL and optional username/password for the password grant. -/
structure OAuthConfig where
  client_id : String
  client_secret : String
  token_url : Option String
  username : Option String
  password : Option String
deriving DecidableEq, Repr

/-- Modelled from the spec: API-key payload (`ApiKeyConfig`); the header name
is caller-controlled. -/
structure ApiKeyConfig where
  header_name : String
  api_key : String
deriving DecidableEq, Repr

/-- Modelled from the spec: the `AuthType` selector. -/
inductive AuthType where
  | basic
  | oauth
  | api_key
deriving DecidableEq, Repr

/-- Modelled from the spec: `AuthConfig` with a selected mode and one optional
payload per mode. -/
structure AuthConfig where
  type : AuthType
  basic : Option BasicAuthConfig
  oauth : Option OAuthConfig
  api_key : Option ApiKeyConfig
deriving DecidableEq, Repr

/-- The mutable OAuth token state owned by `AuthManager` (`self.token`,
`self.token_type`), both initially `None`. -/
structure TokenState where
  token : Option String
  token_type : Option String
deriving DecidableEq, Repr

/-- A POST made by `AuthManager._get_oauth_token` to the token endpoint:
URL, headers, and the form fields (`grant_type`, and for the password grant
also `username` and `password`). -/
structure TokenRequest where
  url : String
  headers : List (String × String)
  grant_type : String
  username : Option String
  password : Option String
deriving DecidableEq, Repr

/-- The observable part of a token-endpoint response: HTTP status and the
`access_token` / `token_type` members of the parsed JSON body. -/
structure TokenResponse where
  status : Nat
  access_token : Option String
  token_type : Option String
deriving DecidableEq, Repr

/-- Python dict assignment `hs[k] = v` on an association list: overwrite in
place when the key exists, else append. -/
def setHeader (hs : List (String × String)) (k v : String) :
    List (String × String) :=
  if hs.any (fun p => p.1 == k) then
    hs.map (fun p => if p.1 == k then (k, v) else p)
  else hs ++ [(k, v)]

/-- Whether `sep` is a prefix of `cs`, by character comparison. -/
def isPrefixList : List Char → List Char → Bool
  | [], _ => true
  | _ :: _, [] => false
  | a :: as, b :: bs => a == b && isPrefixList as bs

/-- Worker for `pySplit`: scan the characters; `skip` counts separator
characters still to be consumed after a match; `acc` holds the current field
reversed. -/
def pySplitGo (sep : List Char) : List Char → List Char → Nat → List (List Char)
  | [], acc, _ => [acc.reverse]
  | _ :: rest, acc, Nat.succ n => pySplitGo sep rest acc n
  | c :: rest, acc, 0 =>
      if isPrefixList sep (c :: rest) then
        acc.reverse :: pySplitGo sep rest [] (sep.length - 1)
      else pySplitGo sep rest (c :: acc) 0

/-- Python `s.split(sep)` for a non-empty separator: left-to-right,
non-overlapping, keeping empty fields (so `"".split(".") == [""]`). -/
def pySplit (s sep : String) : List String :=
  (pySplitGo sep.toList s.toList [] 0).map (fun l => String.mk l)

/-- Token-endpoint resolution, from `AuthManager._get_oauth_token` (lines
85–94): use the configured token URL when truthy; otherwise require a truthy
instance URL, require at least two dot-separated segments, take the segment
before the first `.`, strip any protocol prefix (`split("//")[-1]`), and build
`https://<subdomain>.service-now.com/oauth_token.do`. -/
def resolveTokenUrl (oc : OAuthConfig) (instanceUrl : Option String) :
    Except String String :=
  if strTruthy oc.token_url then .ok (oc.token_url.getD "")
  else if !strTruthy instanceUrl then
    .error "Instance URL is required for OAuth authentication"
  else
    let iu := instanceUrl.getD ""
    let instance_parts := pySplit iu "."
    if instance_parts.length < 2 then .error ("Invalid instance URL: " ++ iu)
    else
      let instance_name := (pySplit (instance_parts.headD "") "//").getLastD ""
      .ok ("https://" ++ instance_name ++ ".service-now.com/oauth_token.do")

/-- The authentication-failure message raised when neither grant succeeds. -/
def oauthFailMsg : String :=
  "Failed to get OAuth token using both client_credentials and password grants."

/-- `AuthManager._get_oauth_token`, with the HTTP transport as a parameter.
Returns the list of token-endpoint POSTs actually made (in order) together
with either the new token state stored on success or the raised error.
On a 200 response it stores `access_token` (absent means Python `None`) and
`token_type` (defaulting to `"Bearer"`). -/
def getOAuthToken (cfg : AuthConfig) (instanceUrl : Option String)
    (t : TokenRequest → TokenResponse) :
    List TokenRequest × Except String TokenState :=
  match cfg.oauth with
  | none => ([], .error "OAuth configuration is required")
  | some oc =>
    match resolveTokenUrl oc instanceUrl with
    | .error e => ([], .error e)
    | .ok tokenUrl =>
      let auth_header := base64Encode (oc.client_id ++ ":" ++ oc.client_secret)
      let postHeaders :=
        [("Authorization", "Basic " ++ auth_header),
         ("Content-Type", "application/x-www-form-urlencoded")]
      let req1 : TokenRequest :=
        ⟨tokenUrl, postHeaders, "client_credentials", none, none⟩
      let resp1 := t req1
      if resp1.status == 200 then
        ([req1], .ok ⟨resp1.access_token, some (resp1.token_type.getD "Bearer")⟩)
      else if strTruthy oc.username && strTruthy oc.password then
        let req2 : TokenRequest :=
          ⟨tokenUrl, postHeaders, "password", oc.username, oc.password⟩
        let resp2 := t req2
        if resp2.status == 200 then
          ([req1, req2],
            .ok ⟨resp2.access_token, some (resp2.token_type.getD "Bearer")⟩)
        else ([req1, req2], .error oauthFailMsg)
      else ([req1], .error oauthFailMsg)

/-- `AuthManager.get_headers`: starts from the `Accept`/`Content-Type`
defaults and adds the mode's authentication header.  In OAuth mode a missing
(or falsy) cached token triggers `_get_oauth_token` first; the `Authorization`
value is the f-string `f"{self.token_type} {self.token}"` over the (possibly
updated) state.  Returns the headers together with the resulting token
state, or the raised error. -/
def getHeaders (cfg : AuthConfig) (st : TokenState)
    (instanceUrl : Option String) (t : TokenRequest → TokenResponse) :
    Except String (List (String × String) × TokenState) :=
  let headers :=
    [("Accept", "application/json"), ("Content-Type", "application/json")]
  match cfg.type with
  | .basic =>
    match cfg.basic with
    | none => .error "Basic auth configuration is required"
    | some b =>
      let encoded := base64Encode (b.username ++ ":" ++ b.password)
      .ok (setHeader headers "Authorization" ("Basic " ++ encoded), st)
  | .oauth =>
    if strTruthy st.token then
      .ok (setHeader headers "Authorization"
            (pyStrOpt st.token_type ++ " " ++ pyStrOpt st.token), st)
    else
      match (getOAuthToken cfg instanceUrl t).2 with
      | .error e => .error e
      | .ok st2 =>
        .ok (setHeader headers "Authorization"
              (pyStrOpt st2.token_type ++ " " ++ pyStrOpt st2.token), st2)
  | .api_key =>
    match cfg.api_key with
    | none => .error "API key configuration is required"
    | some a => .ok (setHeader headers a.header_name a.api_key, st)

/-! ## Parameter normalization (`_unwrap_and_validate_params`)

The five tool modules each contain a byte-identical copy of
`_unwrap_and_validate_params`, `_get_instance_url` and `_get_headers`; they
are embedded once and instantiated per operation. -/

/-- A Python value as it appears in caller-supplied parameter dictionaries and
parsed JSON bodies: strings, integers, `None`, nested dicts and lists. -/
inductive ParamValue where
  | vStr (s : String)
  | vInt (n : Int)
  | vNone
  | vDict (d : List (String × ParamValue))
  | vList (l : List ParamValue)

/-- A Python dictionary with string keys. -/
abbrev PyDict := List (String × ParamValue)

/-- Membership test `k in d` on a Python dict. -/
def hasKey (d : PyDict) (k : String) : Bool :=
  d.any (fun kv => kv.1 == k)

/-- Python `d[k]` / `d.get(k)`: the first binding of `k`. -/
def lookupKey (d : PyDict) (k : String) : Option ParamValue :=
  (d.find? (fun kv => kv.1 == k)).map (fun kv => kv.2)

/-- Python `len` on a parameter value: defined for lists, strings and dicts,
a `TypeError` (hence `none`) otherwise. -/
def pyLen : ParamValue → Option Nat
  | .vList l => some l.length
  | .vStr s => some s.length
  | .vDict d => some d.length
  | _ => none

/-- The caller-supplied `params : Any` argument of a tool operation:
a dict; a non-dict exposing a `.dict()` capability; a non-dict accepted by
the `dict(...)` constructor; or a value for which both conversions raise.
Each non-dict carries the name `type(params).__name__` reports. -/
inductive RawParams where
  | dict (d : PyDict)
  | objWithDict (typeName : String) (d : PyDict)
  | coercible (typeName : String) (d : PyDict)
  | nonCoercible (typeName : String)

/-- Whether a dict has the double-wrapped shape the normalizer unwraps:
exactly one entry, key `"params"`, value itself a dict. -/
def isWrapperShape (d : PyDict) : Bool :=
  match d with
  | [(k, .vDict _)] => k == "params"
  | _ => false

/-- Step 1 of `_unwrap_and_validate_params` (lines 69–71): replace a dict of
the single-entry `{"params": inner}` shape by `inner`; anything else is left
unchanged.  Applied once, not recursively. -/
def unwrapParams (p : RawParams) : RawParams :=
  match p with
  | .dict [(k, .vDict inner)] => if k == "params" then .dict inner else p
  | _ => p

/-- Step 2 (lines 74–84): coerce a non-dict to a dict via `.dict()` or
`dict(...)`; on failure, the input-shape error names the received type. -/
def coerceDict (p : RawParams) : Except String PyDict :=
  match p with
  | .dict d => .ok d
  | .objWithDict _ d => .ok d
  | .coercible _ d => .ok d
  | .nonCoercible typeName =>
      .error ("Invalid parameters format. Expected a dictionary, got " ++ typeName)

/-- Step 3 (lines 86–93): the first name in `required_fields` that is absent
from the dict, if any. -/
def firstMissing (requiredFields : List String) (d : PyDict) : Option String :=
  requiredFields.find? (fun f => !hasKey d f)

/-- The missing-field failure message for field `f`. -/
def missingMsg (f : String) : String :=
  "Missing required parameter '" ++ f ++ "'"

/-- The result of `_unwrap_and_validate_params`: either the validated
parameter record (under the `"params"` key of the returned dict) or the
failure message (under `"message"`, with `success=False`). -/
inductive NormResult (α : Type) where
  | ok (params : α)
  | fail (message : String)
deriving DecidableEq

/-- `_unwrap_and_validate_params(params, model_class, required_fields)` with
the pydantic model validation passed in as `validate` (each model class is a
separate `validate` function below).  Mirrors the source order: unwrap, coerce
to a dict, check required fields one by one, then validate; a validation error
is wrapped in the generic validation failure message. -/
def unwrapAndValidate {α : Type} (p : RawParams)
    (validate : PyDict → Except String α) (requiredFields : List String) :
    NormResult α :=
  match coerceDict (unwrapParams p) with
  | .error m => .fail m
  | .ok d =>
    match firstMissing requiredFields d with
    | some f => .fail (missingMsg f)
    | none =>
      match validate d with
      | .ok r => .ok r
      | .error e => .fail ("Error validating parameters: " ++ e)

/-! ### Pydantic field validation

The tool modules validate with `model_class(**params)` where each model is a
pydantic `BaseModel`.  The helpers below model pydantic v1 behavior for the
field kinds these models use: `str` (required), `Optional[str]` and
`Optional[int]` with a declared default; numbers coerce to `str`, numeric
strings coerce to `int`, extra keys are ignored, and explicit `None` is
accepted for optional fields. -/

/-- Pydantic coercion of a present value to `str`. -/
def coerceStr : ParamValue → Except String String
  | .vStr s => .ok s
  | .vInt n => .ok (toString n)
  | _ => .error "str type expected"

/-- Pydantic coercion of a present value to `int`. -/
def coerceInt : ParamValue → Except String Int
  | .vInt n => .ok n
  | .vStr s =>
      match s.toInt? with
      | some n => .ok n
      | none => .error "value is not a valid integer"
  | _ => .error "value is not a valid integer"

/-- A required `str` field: absent or `None` is a validation error. -/
def reqStrField (d : PyDict) (k : String) : Except String String :=
  match lookupKey d k with
  | none => .error ("field required: " ++ k)
  | some .vNone => .error ("none is not an allowed value: " ++ k)
  | some v => coerceStr v

/-- An `Optional[str]` field with declared default `dflt`. -/
def optStrField (d : PyDict) (k : String) (dflt : Option String) :
    Except String (Option String) :=
  match lookupKey d k with
  | none => .ok dflt
  | some .vNone => .ok none
  | some v => (coerceStr v).map some

/-- An `Optional[int]` field with declared default `dflt`. -/
def optIntField (d : PyDict) (k : String) (dflt : Option Int) :
    Except String (Option Int) :=
  match lookupKey d k with
  | none => .ok dflt
  | some .vNone => .ok none
  | some v => (coerceInt v).map some

/-! ### Validated parameter records, one per pydantic model -/

/-- `CreateEpicParams` (epic_tools.py lines 22–31). -/
structure CreateEpicParams where
  short_description : String
  description : Option String
  priority : Option String
  state : Option String
  assignment_group : Option String
  assigned_to : Option String
  work_notes : Option String
deriving DecidableEq, Repr

/-- Validation by `CreateEpicParams(**params)`. -/
def validateCreateEpicParams (d : PyDict) : Except String CreateEpicParams := do
  let short_description ← reqStrField d "short_description"
  let description ← optStrField d "description" none
  let priority ← optStrField d "priority" none
  let state ← optStrField d "state" none
  let assignment_group ← optStrField d "assignment_group" none
  let assigned_to ← optStrField d "assigned_to" none
  let work_notes ← optStrField d "work_notes" none
  return ⟨short_description, description, priority, state, assignment_group,
          assigned_to, work_notes⟩

/-- `UpdateEpicParams` (epic_tools.py lines 33–43). -/
structure UpdateEpicParams where
  epic_id : String
  short_description : Option String
  description : Option String
  priority : Option String
  state : Option String
  assignment_group : Option String
  assigned_to : Option String
  work_notes : Option String
deriving DecidableEq, Repr

/-- Validation by `UpdateEpicParams(**params)`. -/
def validateUpdateEpicParams (d : PyDict) : Except String UpdateEpicParams := do
  let epic_id ← reqStrField d "epic_id"
  let short_description ← optStrField d "short_description" none
  let description ← optStrField d "description" none
  let priority ← optStrField d "priority" none
  let state ← optStrField d "state" none
  let assignment_group ← optStrField d "assignment_group" none
  let assigned_to ← optStrField d "assigned_to" none
  let work_notes ← optStrField d "work_notes" none
  return ⟨epic_id, short_description, description, priority, state,
          assignment_group, assigned_to, work_notes⟩

/-- `ListEpicsParams` (epic_tools.py lines 45–53). -/
structure ListEpicsParams where
  limit : Option Int
  offset : Option Int
  priority : Option String
  assignment_group : Option String
  timeframe : Option String
  query : Option String
deriving DecidableEq, Repr

/-- Validation by `ListEpicsParams(**params)`; `limit` defaults to 10,
`offset` to 0. -/
def validateListEpicsParams (d : PyDict) : Except String ListEpicsParams := do
  let limit ← optIntField d "limit" (some 10)
  let offset ← optIntField d "offset" (some 0)
  let priority ← optStrField d "priority" none
  let assignment_group ← optStrField d "assignment_group" none
  let timeframe ← optStrField d "timeframe" none
  let query ← optStrField d "query" none
  return ⟨limit, offset, priority, assignment_group, timeframe, query⟩

/-- `CreateStoryParams` (story_tools.py lines 22–34). -/
structure CreateStoryParams where
  short_description : String
  acceptance_criteria : String
  description : Option String
  state : Option String
  assignment_group : Option String
  story_points : Option Int
  assigned_to : Option String
  epic : Option String
  project : Option String
  work_notes : Option String
deriving DecidableEq, Repr

/-- Validation by `CreateStoryParams(**params)`; `story_points` defaults
to 10. -/
def validateCreateStoryParams (d : PyDict) : Except String CreateStoryParams := do
  let short_description ← reqStrField d "short_description"
  let acceptance_criteria ← reqStrField d "acceptance_criteria"
  let description ← optStrField d "description" none
  let state ← optStrField d "state" none
  let assignment_group ← optStrField d "assignment_group" none
  let story_points ← optIntField d "story_points" (some 10)
  let assigned_to ← optStrField d "assigned_to" none
  let epic ← optStrField d "epic" none
  let project ← optStrField d "project" none
  let work_notes ← optStrField d "work_notes" none
  return ⟨short_description, acceptance_criteria, description, state,
          assignment_group, story_points, assigned_to, epic, project,
          work_notes⟩

/-- `UpdateStoryParams` (story_tools.py lines 36–49). -/
structure UpdateStoryParams where
  story_id : String
  short_description : Option String
  acceptance_criteria : Option String
  description : Option String
  state : Option String
  assignment_group : Option String
  story_points : Option Int
  assigned_to : Option String
  epic : Option String
  project : Option String
  work_notes : Option String
deriving DecidableEq, Repr

/-- Validation by `UpdateStoryParams(**params)`. -/
def validateUpdateStoryParams (d : PyDict) : Except String UpdateStoryParams := do
  let story_id ← reqStrField d "story_id"
  let short_description ← optStrField d "short_description" none
  let acceptance_criteria ← optStrField d "acceptance_criteria" none
  let description ← optStrField d "description" none
  let state ← optStrField d "state" none
  let assignment_group ← optStrField d "assignment_group" none
  let story_points ← optIntField d "story_points" none
  let assigned_to ← optStrField d "assigned_to" none
  let epic ← optStrField d "epic" none
  let project ← optStrField d "project" none
  let work_notes ← optStrField d "work_notes" none
  return ⟨story_id, short_description, acceptance_criteria, description,
          state, assignment_group, story_points, assigned_to, epic, project,
          work_notes⟩

/-- `ListStoriesParams` (story_tools.py lines 51–59). -/
structure ListStoriesParams where
  limit : Option Int
  offset : Option Int
  state : Option String
  assignment_group : Option String
  timeframe : Option String
  query : Option String
deriving DecidableEq, Repr

/-- Validation by `ListStoriesParams(**params)`. -/
def validateListStoriesParams (d : PyDict) : Except String ListStoriesParams := do
  let limit ← optIntField d "limit" (some 10)
  let offset ← optIntField d "offset" (some 0)
  let state ← optStrField d "state" none
  let assignment_group ← optStrField d "assignment_group" none
  let timeframe ← optStrField d "timeframe" none
  let query ← optStrField d "query" none
  return ⟨limit, offset, state, assignment_group, timeframe, query⟩

/-- `ListStoryDependenciesParams` (story_tools.py lines 61–68). -/
structure ListStoryDependenciesParams where
  limit : Option Int
  offset : Option Int
  query : Option String
  dependent_story : Option String
  prerequisite_story : Option String
deriving DecidableEq, Repr

/-- Validation by `ListStoryDependenciesParams(**params)`. -/
def validateListStoryDependenciesParams (d : PyDict) :
    Except String ListStoryDependenciesParams := do
  let limit ← optIntField d "limit" (some 10)
  let offset ← optIntField d "offset" (some 0)
  let query ← optStrField d "query" none
  let dependent_story ← optStrField d "dependent_story" none
  let prerequisite_story ← optStrField d "prerequisite_story" none
  return ⟨limit, offset, query, dependent_story, prerequisite_story⟩

/-- `CreateStoryDependencyParams` (story_tools.py lines 70–74). -/
structure CreateStoryDependencyParams where
  dependent_story : String
  prerequisite_story : String
deriving DecidableEq, Repr

/-- Validation by `CreateStoryDependencyParams(**params)`. -/
def validateCreateStoryDependencyParams (d : PyDict) :
    Except String CreateStoryDependencyParams := do
  let dependent_story ← reqStrField d "dependent_story"
  let prerequisite_story ← reqStrField d "prerequisite_story"
  return ⟨dependent_story, prerequisite_story⟩

/-- `DeleteStoryDependencyParams` (story_tools.py lines 76–79). -/
structure DeleteStoryDependencyParams where
  dependency_id : String
deriving DecidableEq, Repr

/-- Validation by `DeleteStoryDependencyParams(**params)`. -/
def validateDeleteStoryDependencyParams (d : PyDict) :
    Except String DeleteStoryDependencyParams := do
  let dependency_id ← reqStrField d "dependency_id"
  return ⟨dependency_id⟩

/-- `CreateProjectParams` (project_tools.py lines 22–34). -/
structure CreateProjectParams where
  short_description : String
  description : Option String
  status : Option String
  state : Option String
  project_manager : Option String
  percentage_complete : Option Int
  assignment_group : Option String
  assigned_to : Option String
  start_date : Option String
  end_date : Option String
deriving DecidableEq, Repr

/-- Validation by `CreateProjectParams(**params)`. -/
def validateCreateProjectParams (d : PyDict) :
    Except String CreateProjectParams := do
  let short_description ← reqStrField d "short_description"
  let description ← optStrField d "description" none
  let status ← optStrField d "status" none
  let state ← optStrField d "state" none
  let project_manager ← optStrField d "project_manager" none
  let percentage_complete ← optIntField d "percentage_complete" none
  let assignment_group ← optStrField d "assignment_group" none
  let assigned_to ← optStrField d "assigned_to" none
  let start_date ← optStrField d "start_date" none
  let end_date ← optStrField d "end_date" none
  return ⟨short_description, description, status, state, project_manager,
          percentage_complete, assignment_group, assigned_to, start_date,
          end_date⟩

/-- `UpdateProjectParams` (project_tools.py lines 36–49). -/
structure UpdateProjectParams where
  project_id : String
  short_description : Option String
  description : Option String
  status : Option String
  state : Option String
  project_manager : Option String
  percentage_complete : Option Int
  assignment_group : Option String
  assigned_to : Option String
  start_date : Option String
  end_date : Option String
deriving DecidableEq, Repr

/-- Validation by `UpdateProjectParams(**params)`. -/
def validateUpdateProjectParams (d : PyDict) :
    Except String UpdateProjectParams := do
  let project_id ← reqStrField d "project_id"
  let short_description ← optStrField d "short_description" none
  let description ← optStrField d "description" none
  let status ← optStrField d "status" none
  let state ← optStrField d "state" none
  let project_manager ← optStrField d "project_manager" none
  let percentage_complete ← optIntField d "percentage_complete" none
  let assignment_group ← optStrField d "assignment_group" none
  let assigned_to ← optStrField d "assigned_to" none
  let start_date ← optStrField d "start_date" none
  let end_date ← optStrField d "end_date" none
  return ⟨project_id, short_description, description, status, state,
          project_manager, percentage_complete, assignment_group, assigned_to,
          start_date, end_date⟩

/-- `ListProjectsParams` (project_tools.py lines 51–59). -/
structure ListProjectsParams where
  limit : Option Int
  offset : Option Int
  state : Option String
  assignment_group : Option String
  timeframe : Option String
  query : Option String
deriving DecidableEq, Repr

/-- Validation by `ListProjectsParams(**params)`. -/
def validateListProjectsParams (d : PyDict) :
    Except String ListProjectsParams := do
  let limit ← optIntField d "limit" (some 10)
  let offset ← optIntField d "offset" (some 0)
  let state ← optStrField d "state" none
  let assignment_group ← optStrField d "assignment_group" none
  let timeframe ← optStrField d "timeframe" none
  let query ← optStrField d "query" none
  return ⟨limit, offset, state, assignment_group, timeframe, query⟩

/-- `CreateScrumTaskParams` (scrum_task_tools.py lines 22–36). -/
structure CreateScrumTaskParams where
  story : String
  short_description : String
  priority : Option String
  planned_hours : Option Int
  remaining_hours : Option Int
  hours : Option Int
  description : Option String
  type : Option String
  state : Option String
  assignment_group : Option String
  assigned_to : Option String
  work_notes : Option String
deriving DecidableEq, Repr

/-- Validation by `CreateScrumTaskParams(**params)`. -/
def validateCreateScrumTaskParams (d : PyDict) :
    Except String CreateScrumTaskParams := do
  let story ← reqStrField d "story"
  let short_description ← reqStrField d "short_description"
  let priority ← optStrField d "priority" none
  let planned_hours ← optIntField d "planned_hours" none
  let remaining_hours ← optIntField d "remaining_hours" none
  let hours ← optIntField d "hours" none
  let description ← optStrField d "description" none
  let type ← optStrField d "type" none
  let state ← optStrField d "state" none
  let assignment_group ← optStrField d "assignment_group" none
  let assigned_to ← optStrField d "assigned_to" none
  let work_notes ← optStrField d "work_notes" none
  return ⟨story, short_description, priority, planned_hours, remaining_hours,
          hours, description, type, state, assignment_group, assigned_to,
          work_notes⟩

/-- `UpdateScrumTaskParams` (scrum_task_tools.py lines 38–52). -/
structure UpdateScrumTaskParams where
  scrum_task_id : String
  short_description : Option String
  priority : Option String
  planned_hours : Option Int
  remaining_hours : Option Int
  hours : Option Int
  description : Option String
  type : Option String
  state : Option String
  assignment_group : Option String
  assigned_to : Option String
  work_notes : Option String
deriving DecidableEq, Repr

/-- Validation by `UpdateScrumTaskParams(**params)`. -/
def validateUpdateScrumTaskParams (d : PyDict) :
    Except String UpdateScrumTaskParams := do
  let scrum_task_id ← reqStrField d "scrum_task_id"
  let short_description ← optStrField d "short_description" none
  let priority ← optStrField d "priority" none
  let planned_hours ← optIntField d "planned_hours" none
  let remaining_hours ← optIntField d "remaining_hours" none
  let hours ← optIntField d "hours" none
  let description ← optStrField d "description" none
  let type ← optStrField d "type" none
  let state ← optStrField d "state" none
  let assignment_group ← optStrField d "assignment_group" none
  let assigned_to ← optStrField d "assigned_to" none
  let work_notes ← optStrField d "work_notes" none
  return ⟨scrum_task_id, short_description, priority, planned_hours,
          remaining_hours, hours, description, type, state, assignment_group,
          assigned_to, work_notes⟩

/-- `ListScrumTasksParams` (scrum_task_tools.py lines 54–62). -/
structure ListScrumTasksParams where
  limit : Option Int
  offset : Option Int
  state : Option String
  assignment_group : Option String
  timeframe : Option String
  query : Option String
deriving DecidableEq, Repr

/-- Validation by `ListScrumTasksParams(**params)`. -/
def validateListScrumTasksParams (d : PyDict) :
    Except String ListScrumTasksParams := do
  let limit ← optIntField d "limit" (some 10)
  let offset ← optIntField d "offset" (some 0)
  let state ← optStrField d "state" none
  let assignment_group ← optStrField d "assignment_group" none
  let timeframe ← optStrField d "timeframe" none
  let query ← optStrField d "query" none
  return ⟨limit, offset, state, assignment_group, timeframe, query⟩

/-! ### Outgoing request payloads

Each create/update operation builds its `data` dict by starting from the
required fields and appending each optional field only when its validated
value is Python-truthy (`if validated_params.x: data["x"] = ...`). -/

/-- `if v: data[k] = v` for an optional string field. -/
def addIfStr (d : PyDict) (k : String) (v : Option String) : PyDict :=
  if strTruthy v then d ++ [(k, ParamValue.vStr (v.getD ""))] else d

/-- `if v: data[k] = v` for an optional integer field. -/
def addIfInt (d : PyDict) (k : String) (v : Option Int) : PyDict :=
  if intTruthy v then d ++ [(k, ParamValue.vInt (v.getD 0))] else d

/-- The `data` dict of `create_epic` (epic_tools.py lines 186–201).  Note
that the optional `state` field of the model is never forwarded. -/
def buildCreateEpicData (p : CreateEpicParams) : PyDict :=
  let data : PyDict := [("short_description", .vStr p.short_description)]
  let data := addIfStr data "description" p.description
  let data := addIfStr data "priority" p.priority
  let data := addIfStr data "assignment_group" p.assignment_group
  let data := addIfStr data "assigned_to" p.assigned_to
  addIfStr data "work_notes" p.work_notes

/-- The `data` dict of `update_epic` (epic_tools.py lines 271–286); `state`
is again never forwarded. -/
def buildUpdateEpicData (p : UpdateEpicParams) : PyDict :=
  let data : PyDict := []
  let data := addIfStr data "short_description" p.short_description
  let data := addIfStr data "description" p.description
  let data := addIfStr data "priority" p.priority
  let data := addIfStr data "assignment_group" p.assignment_group
  let data := addIfStr data "assigned_to" p.assigned_to
  addIfStr data "work_notes" p.work_notes

/-- The `data` dict of `create_story` (story_tools.py lines 211–233). -/
def buildCreateStoryData (p : CreateStoryParams) : PyDict :=
  let data : PyDict :=
    [("short_description", .vStr p.short_description),
     ("acceptance_criteria", .vStr p.acceptance_criteria)]
  let data := addIfStr data "description" p.description
  let data := addIfStr data "state" p.state
  let data := addIfStr data "assignment_group" p.assignment_group
  let data := addIfInt data "story_points" p.story_points
  let data := addIfStr data "assigned_to" p.assigned_to
  let data := addIfStr data "epic" p.epic
  let data := addIfStr data "project" p.project
  addIfStr data "work_notes" p.work_notes

/-- The `data` dict of `update_story` (story_tools.py lines 303–326). -/
def buildUpdateStoryData (p : UpdateStoryParams) : PyDict :=
  let data : PyDict := []
  let data := addIfStr data "short_description" p.short_description
  let data := addIfStr data "acceptance_criteria" p.acceptance_criteria
  let data := addIfStr data "description" p.description
  let data := addIfStr data "state" p.state
  let data := addIfStr data "assignment_group" p.assignment_group
  let data := addIfInt data "story_points" p.story_points
  let data := addIfStr data "epic" p.epic
  let data := addIfStr data "project" p.project
  let data := addIfStr data "assigned_to" p.assigned_to
  addIfStr data "work_notes" p.work_notes

/-- The `data` dict of `create_story_dependency` (story_tools.py lines
588–592): both fields are required and always present. -/
def buildCreateStoryDependencyData (p : CreateStoryDependencyParams) : PyDict :=
  [("dependent_story", .vStr p.dependent_story),
   ("prerequisite_story", .vStr p.prerequisite_story)]

/-- The `data` dict of `create_project` (project_tools.py lines 192–215). -/
def buildCreateProjectData (p : CreateProjectParams) : PyDict :=
  let data : PyDict := [("short_description", .vStr p.short_description)]
  let data := addIfStr data "description" p.description
  let data := addIfStr data "status" p.status
  let data := addIfStr data "state" p.state
  let data := addIfStr data "assignment_group" p.assignment_group
  let data := addIfInt data "percentage_complete" p.percentage_complete
  let data := addIfStr data "assigned_to" p.assigned_to
  let data := addIfStr data "project_manager" p.project_manager
  let data := addIfStr data "start_date" p.start_date
  addIfStr data "end_date" p.end_date

/-- The `data` dict of `update_project` (project_tools.py lines 285–308). -/
def buildUpdateProjectData (p : UpdateProjectParams) : PyDict :=
  let data : PyDict := []
  let data := addIfStr data "short_description" p.short_description
  let data := addIfStr data "description" p.description
  let data := addIfStr data "status" p.status
  let data := addIfStr data "state" p.state
  let data := addIfStr data "assignment_group" p.assignment_group
  let data := addIfInt data "percentage_complete" p.percentage_complete
  let data := addIfStr data "assigned_to" p.assigned_to
  let data := addIfStr data "project_manager" p.project_manager
  let data := addIfStr data "start_date" p.start_date
  addIfStr data "end_date" p.end_date

/-- The `data` dict of `create_scrum_task` (scrum_task_tools.py lines
195–221). -/
def buildCreateScrumTaskData (p : CreateScrumTaskParams) : PyDict :=
  let data : PyDict :=
    [("story", .vStr p.story),
     ("short_description", .vStr p.short_description)]
  let data := addIfStr data "priority" p.priority
  let data := addIfInt data "planned_hours" p.planned_hours
  let data := addIfInt data "remaining_hours" p.remaining_hours
  let data := addIfInt data "hours" p.hours
  let data := addIfStr data "description" p.description
  let data := addIfStr data "type" p.type
  let data := addIfStr data "state" p.state
  let data := addIfStr data "assignment_group" p.assignment_group
  let data := addIfStr data "assigned_to" p.assigned_to
  addIfStr data "work_notes" p.work_notes

/-- The `data` dict of `update_scrum_task` (scrum_task_tools.py lines
291–316). -/
def buildUpdateScrumTaskData (p : UpdateScrumTaskParams) : PyDict :=
  let data : PyDict := []
  let data := addIfStr data "short_description" p.short_description
  let data := addIfStr data "priority" p.priority
  let data := addIfInt data "planned_hours" p.planned_hours
  let data := addIfInt data "remaining_hours" p.remaining_hours
  let data := addIfInt data "hours" p.hours
  let data := addIfStr data "description" p.description
  let data := addIfStr data "type" p.type
  let data := addIfStr data "state" p.state
  let data := addIfStr data "assignment_group" p.assignment_group
  let data := addIfStr data "assigned_to" p.assigned_to
  addIfStr data "work_notes" p.work_notes

/-! ### List query construction

Each list operation collects `query_parts`, translates a truthy `timeframe`
into date comparisons against `now` (the current timestamp formatted
`"%Y-%m-%d %H:%M:%S"`, passed in as a parameter), appends any extra `query`,
and joins the parts with `"^"`. -/

/-- The timeframe fragments appended by every list operation
(`if validated_params.timeframe:` block). -/
def timeframeParts (timeframe : Option String) (now : String) : List String :=
  if strTruthy timeframe then
    let tf := timeframe.getD ""
    if tf == "upcoming" then ["start_date>" ++ now]
    else if tf == "in-progress" then
      ["start_date<" ++ now ++ "^end_date>" ++ now]
    else if tf == "completed" then ["end_date<" ++ now]
    else []
  else []

/-- Python `"^".join(query_parts) if query_parts else ""`. -/
def joinQueryParts (parts : List String) : String :=
  if parts.isEmpty then "" else String.intercalate "^" parts

/-- `query_parts` of `list_epics` (epic_tools.py lines 356–378). -/
def epicQueryParts (p : ListEpicsParams) (now : String) : List String :=
  let qp : List String := []
  let qp := if strTruthy p.priority then
      qp ++ ["priority=" ++ p.priority.getD ""] else qp
  let qp := if strTruthy p.assignment_group then
      qp ++ ["assignment_group=" ++ p.assignment_group.getD ""] else qp
  let qp := qp ++ timeframeParts p.timeframe now
  if strTruthy p.query then qp ++ [p.query.getD ""] else qp

/-- The `sysparm_query` of `list_epics`. -/
def buildEpicListQuery (p : ListEpicsParams) (now : String) : String :=
  joinQueryParts (epicQueryParts p now)

/-- `query_parts` of `list_stories` (story_tools.py lines 395–418). -/
def storyQueryParts (p : ListStoriesParams) (now : String) : List String :=
  let qp : List String := []
  let qp := if strTruthy p.state then
      qp ++ ["state=" ++ p.state.getD ""] else qp
  let qp := if strTruthy p.assignment_group then
      qp ++ ["assignment_group=" ++ p.assignment_group.getD ""] else qp
  let qp := qp ++ timeframeParts p.timeframe now
  if strTruthy p.query then qp ++ [p.query.getD ""] else qp

/-- The `sysparm_query` of `list_stories`. -/
def buildStoryListQuery (p : ListStoriesParams) (now : String) : String :=
  joinQueryParts (storyQueryParts p now)

/-- `query_parts` of `list_projects` (project_tools.py lines 377–400). -/
def projectQueryParts (p : ListProjectsParams) (now : String) : List String :=
  let qp : List String := []
  let qp := if strTruthy p.state then
      qp ++ ["state=" ++ p.state.getD ""] else qp
  let qp := if strTruthy p.assignment_group then
      qp ++ ["assignment_group=" ++ p.assignment_group.getD ""] else qp
  let qp := qp ++ timeframeParts p.timeframe now
  if strTruthy p.query then qp ++ [p.query.getD ""] else qp

/-- The `sysparm_query` of `list_projects`. -/
def buildProjectListQuery (p : ListProjectsParams) (now : String) : String :=
  joinQueryParts (projectQueryParts p now)

/-- `query_parts` of `list_scrum_tasks` (scrum_task_tools.py lines
385–408). -/
def scrumTaskQueryParts (p : ListScrumTasksParams) (now : String) :
    List String :=
  let qp : List String := []
  let qp := if strTruthy p.state then
      qp ++ ["state=" ++ p.state.getD ""] else qp
  let qp := if strTruthy p.assignment_group then
      qp ++ ["assignment_group=" ++ p.assignment_group.getD ""] else qp
  let qp := qp ++ timeframeParts p.timeframe now
  if strTruthy p.query then qp ++ [p.query.getD ""] else qp

/-- The `sysparm_query` of `list_scrum_tasks`. -/
def buildScrumTaskListQuery (p : ListScrumTasksParams) (now : String) : String :=
  joinQueryParts (scrumTaskQueryParts p now)

/-- `query_parts` of `list_story_dependencies` (story_tools.py lines
496–509); no timeframe filter exists for dependencies. -/
def storyDependencyQueryParts (p : ListStoryDependenciesParams) : List String :=
  let qp : List String := []
  let qp := if strTruthy p.dependent_story then
      qp ++ ["dependent_story=" ++ p.dependent_story.getD ""] else qp
  let qp := if strTruthy p.prerequisite_story then
      qp ++ ["prerequisite_story=" ++ p.prerequisite_story.getD ""] else qp
  if strTruthy p.query then qp ++ [p.query.getD ""] else qp

/-- The `sysparm_query` of `list_story_dependencies`. -/
def buildStoryDependencyListQuery (p : ListStoryDependenciesParams) : String :=
  joinQueryParts (storyDependencyQueryParts p)

/-- `ParamValue` of an optional integer as sent in a `requests` params dict
(`None` is serialized by requests, modelled as `vNone`). -/
def pvOfOptInt : Option Int → ParamValue
  | none => .vNone
  | some n => .vInt n

/-- The `params` dict every list operation passes to `requests.get`. -/
def listRequestParams (limit offset : Option Int) (query : String) : PyDict :=
  [("sysparm_limit", pvOfOptInt limit),
   ("sysparm_offset", pvOfOptInt offset),
   ("sysparm_query", .vStr query),
   ("sysparm_display_value", .vStr "true")]

/-! ### Collaborator resolution and the tool-operation pipeline

Every tool operation receives two loosely-typed collaborators.  A
collaborator is summarized by whether it has an `instance_url` attribute
(and its value) and whether it has a `get_headers` capability (and what a
call to it does: return a header dict, or raise). -/

/-- A collaborator as seen through `hasattr` probing.  The outer `Option` is
attribute presence; for `get_headers`, the inner `Except` is the outcome of
calling it (a raise is `error`).  A collaborator whose `get_headers` returns
a falsy value (Python `None` or `{}`) is modelled by an empty header list. -/
structure Collab where
  instanceUrlAttr : Option (Option String)
  getHeadersAttr : Option (Except String (List (String × String)))

/-- `_get_instance_url(auth_manager, server_config)`: prefer the
`server_config` attribute, then `auth_manager`, else `None`. -/
def getInstanceUrl (auth_manager server_config : Collab) : Option String :=
  match server_config.instanceUrlAttr with
  | some v => v
  | none =>
    match auth_manager.instanceUrlAttr with
    | some v => v
    | none => none

/-- `_get_headers(auth_manager, server_config)`: call `get_headers` on the
first collaborator exposing it (a raise propagates); `None` when neither
does.  The source's third probe is subsumed by the second and never fires. -/
def callGetHeaders (auth_manager server_config : Collab) :
    Except String (Option (List (String × String))) :=
  match auth_manager.getHeadersAttr with
  | some r => r.map some
  | none =>
    match server_config.getHeadersAttr with
    | some r => r.map some
    | none => .ok none

/-- The uniform Result Envelope: `success`, and the optional `message`,
entity payload (its key and value), `count` and `total` members. -/
structure Envelope where
  success : Bool
  message : Option String
  payload : Option (String × ParamValue)
  count : Option Nat
  total : Option Nat

/-- The failure shape `{"success": False, "message": m}`. -/
def failEnv (m : String) : Envelope := ⟨false, some m, none, none, none⟩

/-- `"Cannot find instance_url …"` failure message. -/
def noInstanceUrlMsg : String :=
  "Cannot find instance_url in either server_config or auth_manager"

/-- `"Cannot find get_headers …"` failure message. -/
def noGetHeadersMsg : String :=
  "Cannot find get_headers method in either auth_manager or server_config"

/-- An HTTP request issued by a tool operation through `requests`. -/
structure HttpRequest where
  method : String
  url : String
  jsonBody : Option PyDict
  queryParams : Option PyDict
  headers : List (String × String)

/-- The outcome of an HTTP call as the tool code observes it: either a
response that passed `raise_for_status` with its parsed JSON object body, or
a raised `requests.exceptions.RequestException` with its message. -/
inductive HttpOutcome where
  | ok (body : PyDict)
  | requestError (msg : String)

/-- The HTTP transport. -/
abbrev Transport := HttpRequest → HttpOutcome

/-- What distinguishes one create/update operation from another: the model
validation, the required-field list, the table, the URL id segment (empty for
create), the HTTP method, the payload builder, the entity key of the success
envelope, and the success/error message texts. -/
structure WriteSpec (α : Type) where
  validate : PyDict → Except String α
  requiredFields : List String
  table : String
  pathId : α → String
  method : String
  buildData : α → PyDict
  entityKey : String
  successMessage : String
  errLabel : String

/-- The shared body of every create/update tool function: normalize, build the
payload, resolve the instance URL and headers (each failure returning the
envelope's failure shape), add `Content-Type`, issue the request, and map the
outcome.  A raise inside a collaborator's `get_headers`, and the `KeyError`
on a 2xx body without a `"result"` member, escape as `Except.error`. -/
def writeOp {α : Type} (ws : WriteSpec α) (auth_manager server_config : Collab)
    (params : RawParams) (t : Transport) : Except String Envelope :=
  match unwrapAndValidate params ws.validate ws.requiredFields with
  | .fail m => .ok (failEnv m)
  | .ok vp =>
    let data := ws.buildData vp
    let instance_url := getInstanceUrl auth_manager server_config
    if !strTruthy instance_url then .ok (failEnv noInstanceUrlMsg)
    else
      match callGetHeaders auth_manager server_config with
      | .error e => .error e
      | .ok none => .ok (failEnv noGetHeadersMsg)
      | .ok (some hs) =>
        if hs.isEmpty then .ok (failEnv noGetHeadersMsg)
        else
          let hs := setHeader hs "Content-Type" "application/json"
          let url := instance_url.getD "" ++ "/api/now/table/" ++ ws.table
                      ++ ws.pathId vp
          match t ⟨ws.method, url, some data, none, hs⟩ with
          | .requestError e => .ok (failEnv (ws.errLabel ++ e))
          | .ok body =>
            match lookupKey body "result" with
            | none => .error "KeyError: 'result'"
            | some v =>
              .ok ⟨true, some ws.successMessage, some (ws.entityKey, v),
                   none, none⟩

/-- What distinguishes one list operation from another. -/
structure ListSpec (α : Type) where
  validate : PyDict → Except String α
  table : String
  entityKey : String
  buildQuery : α → String → String
  limitOf : α → Option Int
  offsetOf : α → Option Int
  errLabel : String

/-- The shared body of every list tool function: normalize (no required
fields), build the `sysparm_query`, resolve URL and headers, issue the GET
with `sysparm_limit`/`sysparm_offset`/`sysparm_query`/`sysparm_display_value`,
and wrap the `"result"` list (defaulting to `[]`) with `count = total = len`.
A `len()` on a body member with no length escapes as a `TypeError`. -/
def listOp {α : Type} (ls : ListSpec α) (auth_manager server_config : Collab)
    (params : RawParams) (now : String) (t : Transport) :
    Except String Envelope :=
  match unwrapAndValidate params ls.validate [] with
  | .fail m => .ok (failEnv m)
  | .ok vp =>
    let query := ls.buildQuery vp now
    let instance_url := getInstanceUrl auth_manager server_config
    if !strTruthy instance_url then .ok (failEnv noInstanceUrlMsg)
    else
      match callGetHeaders auth_manager server_config with
      | .error e => .error e
      | .ok none => .ok (failEnv noGetHeadersMsg)
      | .ok (some hs) =>
        if hs.isEmpty then .ok (failEnv noGetHeadersMsg)
        else
          let url := instance_url.getD "" ++ "/api/now/table/" ++ ls.table
          let reqParams := listRequestParams (ls.limitOf vp) (ls.offsetOf vp) query
          match t ⟨"GET", url, none, some reqParams, hs⟩ with
          | .requestError e => .ok (failEnv (ls.errLabel ++ e))
          | .ok body =>
            let entities := (lookupKey body "result").getD (.vList [])
            match pyLen entities with
            | none => .error "TypeError: object has no len()"
            | some n =>
              .ok ⟨true, none, some (ls.entityKey, entities), some n, some n⟩

/-- What distinguishes a delete operation. -/
structure DeleteSpec (α : Type) where
  validate : PyDict → Except String α
  requiredFields : List String
  table : String
  pathId : α → String
  successMessage : String
  errLabel : String

/-- The body of `delete_story_dependency`: normalize, resolve URL and headers
(without adding `Content-Type`), issue the DELETE, and return a
message-only success envelope; the response body is never read. -/
def deleteOp {α : Type} (ds : DeleteSpec α) (auth_manager server_config : Collab)
    (params : RawParams) (t : Transport) : Except String Envelope :=
  match unwrapAndValidate params ds.validate ds.requiredFields with
  | .fail m => .ok (failEnv m)
  | .ok vp =>
    let instance_url := getInstanceUrl auth_manager server_config
    if !strTruthy instance_url then .ok (failEnv noInstanceUrlMsg)
    else
      match callGetHeaders auth_manager server_config with
      | .error e => .error e
      | .ok none => .ok (failEnv noGetHeadersMsg)
      | .ok (some hs) =>
        if hs.isEmpty then .ok (failEnv noGetHeadersMsg)
        else
          let url := instance_url.getD "" ++ "/api/now/table/" ++ ds.table
                      ++ ds.pathId vp
          match t ⟨"DELETE", url, none, none, hs⟩ with
          | .requestError e => .ok (failEnv (ds.errLabel ++ e))
          | .ok _ => .ok ⟨true, some ds.successMessage, none, none, none⟩

/-! ### The fifteen tool operations -/

/-- `create_epic` (epic_tools.py lines 157–241). -/
def create_epic (auth_manager server_config : Collab) (params : RawParams)
    (t : Transport) : Except String Envelope :=
  writeOp
    { validate := validateCreateEpicParams
      requiredFields := ["short_description"]
      table := "rm_epic"
      pathId := fun _ => ""
      method := "POST"
      buildData := buildCreateEpicData
      entityKey := "epic"
      successMessage := "Epic created successfully"
      errLabel := "Error creating epic: " }
    auth_manager server_config params t

/-- `update_epic` (epic_tools.py lines 243–326). -/
def update_epic (auth_manager server_config : Collab) (params : RawParams)
    (t : Transport) : Except String Envelope :=
  writeOp
    { validate := validateUpdateEpicParams
      requiredFields := ["epic_id"]
      table := "rm_epic"
      pathId := fun vp => "/" ++ vp.epic_id
      method := "PUT"
      buildData := buildUpdateEpicData
      entityKey := "epic"
      successMessage := "Epic updated successfully"
      errLabel := "Error updating epic: " }
    auth_manager server_config params t

/-- `list_epics` (epic_tools.py lines 328–427). -/
def list_epics (auth_manager server_config : Collab) (params : RawParams)
    (now : String) (t : Transport) : Except String Envelope :=
  listOp
    { validate := validateListEpicsParams
      table := "rm_epic"
      entityKey := "epics"
      buildQuery := buildEpicListQuery
      limitOf := fun vp => vp.limit
      offsetOf := fun vp => vp.offset
      errLabel := "Error listing epics: " }
    auth_manager server_config params now t

/-- `create_story` (story_tools.py lines 182–273). -/
def create_story (auth_manager server_config : Collab) (params : RawParams)
    (t : Transport) : Except String Envelope :=
  writeOp
    { validate := validateCreateStoryParams
      requiredFields := ["short_description", "acceptance_criteria"]
      table := "rm_story"
      pathId := fun _ => ""
      method := "POST"
      buildData := buildCreateStoryData
      entityKey := "story"
      successMessage := "Story created successfully"
      errLabel := "Error creating story: " }
    auth_manager server_config params t

/-- `update_story` (story_tools.py lines 275–366). -/
def update_story (auth_manager server_config : Collab) (params : RawParams)
    (t : Transport) : Except String Envelope :=
  writeOp
    { validate := validateUpdateStoryParams
      requiredFields := ["story_id"]
      table := "rm_story"
      pathId := fun vp => "/" ++ vp.story_id
      method := "PUT"
      buildData := buildUpdateStoryData
      entityKey := "story"
      successMessage := "Story updated successfully"
      errLabel := "Error updating story: " }
    auth_manager server_config params t

/-- `list_stories` (story_tools.py lines 368–467). -/
def list_stories (auth_manager server_config : Collab) (params : RawParams)
    (now : String) (t : Transport) : Except String Envelope :=
  listOp
    { validate := validateListStoriesParams
      table := "rm_story"
      entityKey := "stories"
      buildQuery := buildStoryListQuery
      limitOf := fun vp => vp.limit
      offsetOf := fun vp => vp.offset
      errLabel := "Error listing stories: " }
    auth_manager server_config params now t

/-- `list_story_dependencies` (story_tools.py lines 469–558). -/
def list_story_dependencies (auth_manager server_config : Collab)
    (params : RawParams) (now : String) (t : Transport) :
    Except String Envelope :=
  listOp
    { validate := validateListStoryDependenciesParams
      table := "m2m_story_dependencies"
      entityKey := "story_dependencies"
      buildQuery := fun vp _ => buildStoryDependencyListQuery vp
      limitOf := fun vp => vp.limit
      offsetOf := fun vp => vp.offset
      errLabel := "Error listing story dependencies: " }
    auth_manager server_config params now t

/-- `create_story_dependency` (story_tools.py lines 560–631). -/
def create_story_dependency (auth_manager server_config : Collab)
    (params : RawParams) (t : Transport) : Except String Envelope :=
  writeOp
    { validate := validateCreateStoryDependencyParams
      requiredFields := ["dependent_story", "prerequisite_story"]
      table := "m2m_story_dependencies"
      pathId := fun _ => ""
      method := "POST"
      buildData := buildCreateStoryDependencyData
      entityKey := "story_dependency"
      successMessage := "Story dependency created successfully"
      errLabel := "Error creating story dependency: " }
    auth_manager server_config params t

/-- `delete_story_dependency` (story_tools.py lines 632–692). -/
def delete_story_dependency (auth_manager server_config : Collab)
    (params : RawParams) (t : Transport) : Except String Envelope :=
  deleteOp
    { validate := validateDeleteStoryDependencyParams
      requiredFields := ["dependency_id"]
      table := "m2m_story_dependencies"
      pathId := fun vp => "/" ++ vp.dependency_id
      successMessage := "Story dependency deleted successfully"
      errLabel := "Error deleting story dependency: " }
    auth_manager server_config params t

/-- `create_project` (project_tools.py lines 163–255); its outer signature
takes `config` first, but the helpers still receive `(auth_manager, config)`. -/
def create_project (config auth_manager : Collab) (params : RawParams)
    (t : Transport) : Except String Envelope :=
  writeOp
    { validate := validateCreateProjectParams
      requiredFields := ["short_description"]
      table := "pm_project"
      pathId := fun _ => ""
      method := "POST"
      buildData := buildCreateProjectData
      entityKey := "project"
      successMessage := "Project created successfully"
      errLabel := "Error creating project: " }
    auth_manager config params t

/-- `update_project` (project_tools.py lines 257–348). -/
def update_project (config auth_manager : Collab) (params : RawParams)
    (t : Transport) : Except String Envelope :=
  writeOp
    { validate := validateUpdateProjectParams
      requiredFields := ["project_id"]
      table := "pm_project"
      pathId := fun vp => "/" ++ vp.project_id
      method := "PUT"
      buildData := buildUpdateProjectData
      entityKey := "project"
      successMessage := "Project updated successfully"
      errLabel := "Error updating project: " }
    auth_manager config params t

/-- `list_projects` (project_tools.py lines 350–449). -/
def list_projects (config auth_manager : Collab) (params : RawParams)
    (now : String) (t : Transport) : Except String Envelope :=
  listOp
    { validate := validateListProjectsParams
      table := "pm_project"
      entityKey := "projects"
      buildQuery := buildProjectListQuery
      limitOf := fun vp => vp.limit
      offsetOf := fun vp => vp.offset
      errLabel := "Error listing projects: " }
    auth_manager config params now t

/-- `create_scrum_task` (scrum_task_tools.py lines 166–261). -/
def create_scrum_task (auth_manager server_config : Collab)
    (params : RawParams) (t : Transport) : Except String Envelope :=
  writeOp
    { validate := validateCreateScrumTaskParams
      requiredFields := ["short_description", "story"]
      table := "rm_scrum_task"
      pathId := fun _ => ""
      method := "POST"
      buildData := buildCreateScrumTaskData
      entityKey := "scrum_task"
      successMessage := "Scrum Task created successfully"
      errLabel := "Error creating scrum task: " }
    auth_manager server_config params t

/-- `update_scrum_task` (scrum_task_tools.py lines 263–356). -/
def update_scrum_task (auth_manager server_config : Collab)
    (params : RawParams) (t : Transport) : Except String Envelope :=
  writeOp
    { validate := validateUpdateScrumTaskParams
      requiredFields := ["scrum_task_id"]
      table := "rm_scrum_task"
      pathId := fun vp => "/" ++ vp.scrum_task_id
      method := "PUT"
      buildData := buildUpdateScrumTaskData
      entityKey := "scrum_task"
      successMessage := "Scrum Task updated successfully"
      errLabel := "Error updating scrum task: " }
    auth_manager server_config params t

/-- `list_scrum_tasks` (scrum_task_tools.py lines 358–457); its error label
says "stories", as in the source. -/
def list_scrum_tasks (auth_manager server_config : Collab)
    (params : RawParams) (now : String) (t : Transport) :
    Except String Envelope :=
  listOp
    { validate := validateListScrumTasksParams
      table := "rm_scrum_task"
      entityKey := "scrum_tasks"
      buildQuery := buildScrumTaskListQuery
      limitOf := fun vp => vp.limit
      offsetOf := fun vp => vp.offset
      errLabel := "Error listing stories: " }
    auth_manager server_config params now t

/-! ## Theorems -/

/-- A dict that is not wrapper-shaped passes through `unwrapParams`
unchanged. -/
theorem unwrapParams_not_wrapper (d : PyDict) (h : isWrapperShape d = false) :
    unwrapParams (.dict d) = .dict d := by
  match d with
  | [] => rfl
  | (k, .vStr s) :: rest => cases rest <;> rfl
  | (k, .vInt n) :: rest => cases rest <;> rfl
  | (k, .vNone) :: rest => cases rest <;> rfl
  | (k, .vList l) :: rest => cases rest <;> rfl
  | (k, .vDict inner) :: rest =>
    cases rest with
    | nil =>
      simp only [isWrapperShape] at h
      simp [unwrapParams, h]
    | cons b rest' => rfl

/-- C6 (corrected): normalizing the single-entry wrapper `{"params": m}`
agrees with normalizing `m` directly for every mapping `m` that is not itself
of the wrapper shape; unwrapping is applied only once, so a wrapper whose
inner mapping is again wrapper-shaped is unwrapped one level only (see the
counterexample). -/
theorem wrapper_unwrap_equiv {α : Type} (validate : PyDict → Except String α)
    (req : List String) (m : PyDict) (h : isWrapperShape m = false) :
    unwrapAndValidate (.dict [("params", .vDict m)]) validate req =
      unwrapAndValidate (.dict m) validate req := by
  unfold unwrapAndValidate
  rw [unwrapParams_not_wrapper m h]
  have h1 : unwrapParams (.dict [("params", .vDict m)]) = .dict m := by
    simp [unwrapParams]
  rw [h1]

/-- Witness for C6: a flat mapping normalizes the same wrapped or not. -/
theorem wrapper_unwrap_equiv_witness :
    unwrapAndValidate
        (.dict [("params", .vDict [("short_description", .vStr "x")])])
        validateCreateEpicParams ["short_description"] =
      unwrapAndValidate (.dict [("short_description", .vStr "x")])
        validateCreateEpicParams ["short_description"] :=
  wrapper_unwrap_equiv validateCreateEpicParams ["short_description"]
    [("short_description", .vStr "x")] (by decide)

/-- Counterexample for C6 as stated: for the mapping
`m = {"params": {"short_description": "x"}}` (itself wrapper-shaped),
normalizing `{"params": m}` unwraps only once and then fails the required
check, while normalizing `m` directly succeeds — so the two are not equal for
*every* mapping `m`. -/
theorem wrapper_unwrap_counterexample :
    unwrapAndValidate
        (.dict [("params", .vDict [("params",
          .vDict [("short_description", .vStr "x")])])])
        validateCreateEpicParams ["short_description"] =
      .fail "Missing required parameter 'short_description'" ∧
    unwrapAndValidate
        (.dict [("params", .vDict [("short_description", .vStr "x")])])
        validateCreateEpicParams ["short_description"] =
      .ok ⟨"x", none, none, none, none, none, none⟩ ∧
    unwrapAndValidate
        (.dict [("params", .vDict [("params",
          .vDict [("short_description", .vStr "x")])])])
        validateCreateEpicParams ["short_description"] ≠
      unwrapAndValidate
        (.dict [("params", .vDict [("short_description", .vStr "x")])])
        validateCreateEpicParams ["short_description"] := by
  refine ⟨rfl, rfl, ?_⟩
  decide

/-- C7: when the (unwrapped, coerced) parameter mapping is missing some
required field, normalization fails naming exactly the first absent field in
required-field order, and the result does not depend on the schema validator
at all — so the failure is a missing-field error, never a generic validation
error. -/
theorem missing_required_field_first {α : Type}
    (validate : PyDict → Except String α) (req : List String) (p : RawParams)
    (d : PyDict) (f : String) (hd : coerceDict (unwrapParams p) = .ok d)
    (hf : firstMissing req d = some f) :
    unwrapAndValidate p validate req =
      .fail ("Missing required parameter '" ++ f ++ "'") ∧
    ∀ validate' : PyDict → Except String α,
      unwrapAndValidate p validate' req = unwrapAndValidate p validate req := by
  constructor
  · simp [unwrapAndValidate, hd, hf, missingMsg]
  · intro validate'
    simp [unwrapAndValidate, hd, hf]

/-- Witness for C7: a mapping lacking `short_description` fails naming it. -/
theorem missing_required_field_first_witness :
    unwrapAndValidate (.dict [("description", .vStr "d")])
        validateCreateEpicParams ["short_description"] =
      .fail "Missing required parameter 'short_description'" :=
  (missing_required_field_first validateCreateEpicParams ["short_description"]
    (.dict [("description", .vStr "d")]) [("description", .vStr "d")]
    "short_description" rfl rfl).1

/-- C8: a non-mapping, non-coercible input fails with the input-shape message
naming the received type, independently of the schema validator and of the
required-field list (so neither check is performed on it). -/
theorem noncoercible_input_shape_error {α : Type}
    (validate : PyDict → Except String α) (req : List String)
    (typeName : String) :
    unwrapAndValidate (.nonCoercible typeName) validate req =
      .fail ("Invalid parameters format. Expected a dictionary, got "
        ++ typeName) := rfl

/-- C3: when a token URL is configured (present and non-empty) it is used
unchanged and the instance URL is never consulted; otherwise the resolution
fails exactly when no instance URL is available or the instance URL splits on
`.` into fewer than two segments, and on success the endpoint is
`https://<subdomain>.service-now.com/oauth_token.do` where `<subdomain>` is
the segment before the first `.` with any protocol prefix stripped
(`split("//")[-1]`). -/
theorem token_endpoint_resolution (oc : OAuthConfig) (iu : Option String) :
    (strTruthy oc.token_url = true →
      resolveTokenUrl oc iu = .ok (oc.token_url.getD "") ∧
      ∀ iu' : Option String, resolveTokenUrl oc iu' = resolveTokenUrl oc iu) ∧
    (strTruthy oc.token_url = false →
      ((∃ e, resolveTokenUrl oc iu = .error e) ↔
        strTruthy iu = false ∨ (pySplit (iu.getD "") ".").length < 2) ∧
      (strTruthy iu = true → ¬ (pySplit (iu.getD "") ".").length < 2 →
        resolveTokenUrl oc iu =
          .ok ("https://"
            ++ (pySplit ((pySplit (iu.getD "") ".").headD "") "//").getLastD ""
            ++ ".service-now.com/oauth_token.do"))) := by
  constructor
  · intro h
    constructor
    · simp [resolveTokenUrl, h]
    · intro iu'
      simp [resolveTokenUrl, h]
  · intro h
    constructor
    · constructor
      · rintro ⟨e, he⟩
        by_contra hc
        push_neg at hc
        obtain ⟨h1, h2⟩ := hc
        simp only [ne_eq, Bool.not_eq_false] at h1
        simp [resolveTokenUrl, h, h1] at he
        rw [if_neg (by omega)] at he
        exact Except.noConfusion he
      · rintro (h1 | h2)
        · refine ⟨"Instance URL is required for OAuth authentication", ?_⟩
          simp [resolveTokenUrl, h, h1]
        · by_cases h1 : strTruthy iu = true
          · refine ⟨"Invalid instance URL: " ++ iu.getD "", ?_⟩
            simp [resolveTokenUrl, h, h1, h2]
          · rw [Bool.not_eq_true] at h1
            refine ⟨"Instance URL is required for OAuth authentication", ?_⟩
            simp [resolveTokenUrl, h, h1]
    · intro h1 h2
      simp [resolveTokenUrl, h, h1, h2]

/-- Witness for C3: a standard instance URL derives the expected token
endpoint, and a configured token URL is taken as-is. -/
theorem token_endpoint_resolution_witness :
    resolveTokenUrl ⟨"id", "secret", none, none, none⟩
        (some "https://dev123.service-now.com") =
      .ok "https://dev123.service-now.com/oauth_token.do" ∧
    resolveTokenUrl ⟨"id", "secret", some "https://tok.example/x", none, none⟩
        none =
      .ok "https://tok.example/x" := by
  constructor
  · have h :=
      ((token_endpoint_resolution ⟨"id", "secret", none, none, none⟩
        (some "https://dev123.service-now.com")).2 (by decide)).2
        (by decide) (by decide)
    exact h.trans (congrArg Except.ok (by decide))
  · have h :=
      ((token_endpoint_resolution
        ⟨"id", "secret", some "https://tok.example/x", none, none⟩
        none).1 (by decide)).1
    exact h

/-- C1: with an OAuth payload configured and the token endpoint resolved, the
first POST always carries `grant_type=client_credentials`; exactly when it
returns 200 the response's `access_token` and `token_type` (defaulting to
`"Bearer"`) are stored and no further attempt is made; otherwise exactly when
both a username and a password are configured a single
`grant_type=password` POST follows, storing its token on 200 the same way;
and the procedure returns a token state rather than failing exactly when some
attempt returned 200. -/
theorem oauth_token_acquisition_order (cfg : AuthConfig) (oc : OAuthConfig)
    (iu : Option String) (tokenUrl : String) (t : TokenRequest → TokenResponse)
    (hoc : cfg.oauth = some oc)
    (hurl : resolveTokenUrl oc iu = .ok tokenUrl) :
    let postHeaders :=
      [("Authorization",
        "Basic " ++ base64Encode (oc.client_id ++ ":" ++ oc.client_secret)),
       ("Content-Type", "application/x-www-form-urlencoded")]
    let req1 : TokenRequest :=
      ⟨tokenUrl, postHeaders, "client_credentials", none, none⟩
    let req2 : TokenRequest :=
      ⟨tokenUrl, postHeaders, "password", oc.username, oc.password⟩
    ((getOAuthToken cfg iu t).1.head? = some req1) ∧
    ((t req1).status = 200 →
      getOAuthToken cfg iu t =
        ([req1], .ok ⟨(t req1).access_token,
                      some ((t req1).token_type.getD "Bearer")⟩)) ∧
    ((t req1).status ≠ 200 → strTruthy oc.username = true →
      strTruthy oc.password = true →
      (getOAuthToken cfg iu t).1 = [req1, req2] ∧
      ((t req2).status = 200 →
        (getOAuthToken cfg iu t).2 =
          .ok ⟨(t req2).access_token,
               some ((t req2).token_type.getD "Bearer")⟩) ∧
      ((t req2).status ≠ 200 →
        (getOAuthToken cfg iu t).2 = .error oauthFailMsg)) ∧
    ((t req1).status ≠ 200 →
      (strTruthy oc.username && strTruthy oc.password) = false →
      getOAuthToken cfg iu t = ([req1], .error oauthFailMsg)) ∧
    ((∃ st, (getOAuthToken cfg iu t).2 = .ok st) ↔
      ((t req1).status = 200 ∨
        (strTruthy oc.username = true ∧ strTruthy oc.password = true ∧
          (t req2).status = 200))) := by
  intro postHeaders req1 req2
  have hbody : getOAuthToken cfg iu t =
      (if (t req1).status == 200 then
        ([req1], .ok ⟨(t req1).access_token,
                      some ((t req1).token_type.getD "Bearer")⟩)
      else if strTruthy oc.username && strTruthy oc.password then
        (if (t req2).status == 200 then
          ([req1, req2], .ok ⟨(t req2).access_token,
                              some ((t req2).token_type.getD "Bearer")⟩)
        else ([req1, req2], .error oauthFailMsg))
      else ([req1], .error oauthFailMsg)) := by
    simp only [getOAuthToken, hoc, hurl]
  by_cases h1 : (t req1).status = 200
  · rw [hbody]
    simp [h1]
  · have h1b : ((t req1).status == 200) = false := by
      simp [h1]
    by_cases h2 : (strTruthy oc.username && strTruthy oc.password) = true
    · rw [Bool.and_eq_true] at h2
      obtain ⟨hu, hp⟩ := h2
      by_cases h3 : (t req2).status = 200
      · rw [hbody]
        simp [h1b, hu, hp, h3, h1]
      · have h3b : ((t req2).status == 200) = false := by
          simp [h3]
        rw [hbody]
        simp [h1b, hu, hp, h3b, h1, h3]
    · have h2b : (strTruthy oc.username && strTruthy oc.password) = false := by
        revert h2
        cases strTruthy oc.username && strTruthy oc.password <;> simp
      rw [hbody]
      simp [h1b, h2b, h1]
      rw [Bool.and_eq_false_iff] at h2b
      constructor
      · intro hu
        rcases h2b with hx | hx
        · rw [hu] at hx
          exact absurd hx (by simp)
        · exact hx
      · intro hu hp
        rcases h2b with hx | hx
        · rw [hu] at hx
          exact absurd hx (by simp)
        · rw [hp] at hx
          exact absurd hx (by simp)

/-- Witness for C1: a transport rejecting `client_credentials` with 401 and
accepting `password` with 200 yields exactly the two POSTs in order and the
password grant's token. -/
theorem oauth_token_acquisition_order_witness :
    getOAuthToken
        ⟨.oauth, none,
         some ⟨"id", "sec", some "https://tok.example/t", some "u", some "p"⟩,
         none⟩
        none
        (fun r => if r.grant_type == "client_credentials"
                  then ⟨401, none, none⟩
                  else ⟨200, some "tok2", some "bearer"⟩) =
      ([⟨"https://tok.example/t",
         [("Authorization", "Basic " ++ base64Encode "id:sec"),
          ("Content-Type", "application/x-www-form-urlencoded")],
         "client_credentials", none, none⟩,
        ⟨"https://tok.example/t",
         [("Authorization", "Basic " ++ base64Encode "id:sec"),
          ("Content-Type", "application/x-www-form-urlencoded")],
         "password", some "u", some "p"⟩],
       .ok ⟨some "tok2", some "bearer"⟩) := by
  have h := oauth_token_acquisition_order
    ⟨.oauth, none,
     some ⟨"id", "sec", some "https://tok.example/t", some "u", some "p"⟩,
     none⟩
    ⟨"id", "sec", some "https://tok.example/t", some "u", some "p"⟩
    none "https://tok.example/t"
    (fun r => if r.grant_type == "client_credentials"
              then ⟨401, none, none⟩
              else ⟨200, some "tok2", some "bearer"⟩)
    rfl rfl
  obtain ⟨-, -, h3, -, -⟩ := h
  have h4 := h3 (by decide) rfl rfl
  refine Prod.ext ?_ ?_
  · exact h4.1
  · exact (h4.2.1 rfl).trans rfl

/-- Adding a header whose name differs from both defaults appends it. -/
theorem setHeader_defaults_append (k v : String) (h1 : k ≠ "Accept")
    (h2 : k ≠ "Content-Type") :
    setHeader [("Accept", "application/json"),
               ("Content-Type", "application/json")] k v =
      [("Accept", "application/json"), ("Content-Type", "application/json"),
       (k, v)] := by
  have e1 : (("Accept" : String) == k) = false := by
    simp [Ne.symm h1]
  have e2 : (("Content-Type" : String) == k) = false := by
    simp [Ne.symm h2]
  simp [setHeader, e1, e2]

/-- C2 (corrected): for every populated mode, `get_headers()` returns exactly
the two default headers plus one authentication header: `Authorization:
Basic <base64(username:password)>` in Basic mode; `Authorization:
<token_type> <token>` in OAuth mode (from the cache when a non-empty token is
cached, else from a successful acquisition, whose state is returned); and the
configured header name bound to the key value in API-key mode — the last
*provided* the configured name is neither `Accept` nor `Content-Type`, since
a colliding name overwrites the default instead of adding a third header
(see the counterexample). -/
theorem get_headers_mode_shape (cfg : AuthConfig) (st : TokenState)
    (iu : Option String) (t : TokenRequest → TokenResponse) :
    (∀ b : BasicAuthConfig, cfg.type = .basic → cfg.basic = some b →
      getHeaders cfg st iu t =
        .ok ([("Accept", "application/json"),
              ("Content-Type", "application/json"),
              ("Authorization",
               "Basic " ++ base64Encode (b.username ++ ":" ++ b.password))],
             st)) ∧
    (∀ tok tt : String, cfg.type = .oauth → st.token = some tok → tok ≠ "" →
      st.token_type = some tt →
      getHeaders cfg st iu t =
        .ok ([("Accept", "application/json"),
              ("Content-Type", "application/json"),
              ("Authorization", tt ++ " " ++ tok)], st)) ∧
    (∀ (st2 : TokenState) (tok tt : String), cfg.type = .oauth →
      strTruthy st.token = false → (getOAuthToken cfg iu t).2 = .ok st2 →
      st2.token = some tok → st2.token_type = some tt →
      getHeaders cfg st iu t =
        .ok ([("Accept", "application/json"),
              ("Content-Type", "application/json"),
              ("Authorization", tt ++ " " ++ tok)], st2)) ∧
    (∀ a : ApiKeyConfig, cfg.type = .api_key → cfg.api_key = some a →
      a.header_name ≠ "Accept" → a.header_name ≠ "Content-Type" →
      getHeaders cfg st iu t =
        .ok ([("Accept", "application/json"),
              ("Content-Type", "application/json"),
              (a.header_name, a.api_key)], st)) := by
  refine ⟨?_, ?_, ?_, ?_⟩
  · intro b htype hb
    rw [show getHeaders cfg st iu t =
        .ok (setHeader [("Accept", "application/json"),
                        ("Content-Type", "application/json")] "Authorization"
              ("Basic " ++ base64Encode (b.username ++ ":" ++ b.password)), st)
      from by simp [getHeaders, htype, hb]]
    rw [setHeader_defaults_append _ _ (by decide) (by decide)]
  · intro tok tt htype htok hne htt
    have htr : strTruthy st.token = true := by
      rw [htok]
      have : tok.isEmpty = false := by
        rw [Bool.eq_false_iff]
        intro hemp
        exact hne ((String.isEmpty_iff tok).mp hemp)
      simp [strTruthy, this]
    rw [show getHeaders cfg st iu t =
        .ok (setHeader [("Accept", "application/json"),
                        ("Content-Type", "application/json")] "Authorization"
              (pyStrOpt st.token_type ++ " " ++ pyStrOpt st.token), st)
      from by simp [getHeaders, htype, htr]]
    rw [setHeader_defaults_append _ _ (by decide) (by decide), htok, htt]
    rfl
  · intro st2 tok tt htype htok hacq htok2 htt2
    rw [show getHeaders cfg st iu t =
        .ok (setHeader [("Accept", "application/json"),
                        ("Content-Type", "application/json")] "Authorization"
              (pyStrOpt st2.token_type ++ " " ++ pyStrOpt st2.token), st2)
      from by simp [getHeaders, htype, htok, hacq]]
    rw [setHeader_defaults_append _ _ (by decide) (by decide), htok2, htt2]
    rfl
  · intro a htype ha h1 h2
    rw [show getHeaders cfg st iu t =
        .ok (setHeader [("Accept", "application/json"),
                        ("Content-Type", "application/json")]
              a.header_name a.api_key, st)
      from by simp [getHeaders, htype, ha]]
    rw [setHeader_defaults_append _ _ h1 h2]

/-- Witness for C2: a Basic configuration yields exactly the two defaults
plus the expected `Authorization` header, and an API-key configuration with
a non-colliding name yields exactly the defaults plus that header. -/
theorem get_headers_mode_shape_witness :
    getHeaders ⟨.basic, some ⟨"admin", "pass"⟩, none, none⟩ ⟨none, none⟩ none
        (fun _ => ⟨500, none, none⟩) =
      .ok ([("Accept", "application/json"),
            ("Content-Type", "application/json"),
            ("Authorization", "Basic YWRtaW46cGFzcw==")], ⟨none, none⟩) ∧
    getHeaders ⟨.api_key, none, none, some ⟨"x-sn-apikey", "k1"⟩⟩
        ⟨none, none⟩ none (fun _ => ⟨500, none, none⟩) =
      .ok ([("Accept", "application/json"),
            ("Content-Type", "application/json"),
            ("x-sn-apikey", "k1")], ⟨none, none⟩) := by
  constructor
  · have h := (get_headers_mode_shape ⟨.basic, some ⟨"admin", "pass"⟩, none, none⟩
      ⟨none, none⟩ none (fun _ => ⟨500, none, none⟩)).1 ⟨"admin", "pass"⟩ rfl rfl
    exact h.trans rfl
  · exact (get_headers_mode_shape ⟨.api_key, none, none, some ⟨"x-sn-apikey", "k1"⟩⟩
      ⟨none, none⟩ none (fun _ => ⟨500, none, none⟩)).2.2.2 ⟨"x-sn-apikey", "k1"⟩
      rfl rfl (by decide) (by decide)

/-- Counterexample for C2 as stated: an API-key payload may name the header
`Content-Type`; the assignment then overwrites the default, and the returned
mapping does not contain `Content-Type: application/json`, contradicting the
claim that it always does. -/
theorem apikey_header_collision_counterexample :
    getHeaders ⟨.api_key, none, none, some ⟨"Content-Type", "secret-key"⟩⟩
        ⟨none, none⟩ none (fun _ => ⟨500, none, none⟩) =
      .ok ([("Accept", "application/json"), ("Content-Type", "secret-key")],
           ⟨none, none⟩) ∧
    ¬ (("Content-Type", "application/json") ∈
        ([("Accept", "application/json"), ("Content-Type", "secret-key")] :
          List (String × String))) := by
  constructor
  · rfl
  · decide

/-- `joinQueryParts` is `"^"`-intercalation. -/
theorem joinQueryParts_eq (l : List String) :
    joinQueryParts l = String.intercalate "^" l := by
  cases l with
  | nil => rfl
  | cons a as => rfl

/-- The timeframe translation in claim form: comparing the optional field
against the three literals (an empty or unknown timeframe contributes
nothing). -/
theorem timeframeParts_eq (tf : Option String) (now : String) :
    timeframeParts tf now =
      (if tf = some "upcoming" then ["start_date>" ++ now]
       else if tf = some "in-progress" then
         ["start_date<" ++ now ++ "^end_date>" ++ now]
       else if tf = some "completed" then ["end_date<" ++ now]
       else []) := by
  cases tf with
  | none => simp [timeframeParts, strTruthy]
  | some s =>
    by_cases h0 : s = ""
    · subst h0
      simp [timeframeParts, strTruthy]
    · have hne : s.isEmpty = false := by
        rw [Bool.eq_false_iff]
        intro hemp
        exact h0 ((String.isEmpty_iff s).mp hemp)
      by_cases h1 : s = "upcoming"
      · subst h1
        simp [timeframeParts, strTruthy, hne]
      · by_cases h2 : s = "in-progress"
        · subst h2
          simp [timeframeParts, strTruthy, hne]
        · by_cases h3 : s = "completed"
          · subst h3
            simp [timeframeParts, strTruthy, hne]
          · simp [timeframeParts, strTruthy, hne, h1, h2, h3]

/-- The sequential `query_parts` construction of `list_epics` decomposes into
the concatenation of its independent fragments, in source order. -/
theorem epicQueryParts_eq (p : ListEpicsParams) (now : String) :
    epicQueryParts p now =
      (if strTruthy p.priority then ["priority=" ++ p.priority.getD ""]
       else []) ++
      (if strTruthy p.assignment_group then
        ["assignment_group=" ++ p.assignment_group.getD ""] else []) ++
      timeframeParts p.timeframe now ++
      (if strTruthy p.query then [p.query.getD ""] else []) := by
  unfold epicQueryParts
  cases hq : strTruthy p.query <;> cases hp : strTruthy p.priority <;>
    cases ha : strTruthy p.assignment_group <;> simp [hq, hp, ha]

/-- As `epicQueryParts_eq`, for `list_stories`. -/
theorem storyQueryParts_eq (p : ListStoriesParams) (now : String) :
    storyQueryParts p now =
      (if strTruthy p.state then ["state=" ++ p.state.getD ""] else []) ++
      (if strTruthy p.assignment_group then
        ["assignment_group=" ++ p.assignment_group.getD ""] else []) ++
      timeframeParts p.timeframe now ++
      (if strTruthy p.query then [p.query.getD ""] else []) := by
  unfold storyQueryParts
  cases hq : strTruthy p.query <;> cases hs : strTruthy p.state <;>
    cases ha : strTruthy p.assignment_group <;> simp [hq, hs, ha]

/-- As `epicQueryParts_eq`, for `list_projects`. -/
theorem projectQueryParts_eq (p : ListProjectsParams) (now : String) :
    projectQueryParts p now =
      (if strTruthy p.state then ["state=" ++ p.state.getD ""] else []) ++
      (if strTruthy p.assignment_group then
        ["assignment_group=" ++ p.assignment_group.getD ""] else []) ++
      timeframeParts p.timeframe now ++
      (if strTruthy p.query then [p.query.getD ""] else []) := by
  unfold projectQueryParts
  cases hq : strTruthy p.query <;> cases hs : strTruthy p.state <;>
    cases ha : strTruthy p.assignment_group <;> simp [hq, hs, ha]

/-- As `epicQueryParts_eq`, for `list_scrum_tasks`. -/
theorem scrumTaskQueryParts_eq (p : ListScrumTasksParams) (now : String) :
    scrumTaskQueryParts p now =
      (if strTruthy p.state then ["state=" ++ p.state.getD ""] else []) ++
      (if strTruthy p.assignment_group then
        ["assignment_group=" ++ p.assignment_group.getD ""] else []) ++
      timeframeParts p.timeframe now ++
      (if strTruthy p.query then [p.query.getD ""] else []) := by
  unfold scrumTaskQueryParts
  cases hq : strTruthy p.query <;> cases hs : strTruthy p.state <;>
    cases ha : strTruthy p.assignment_group <;> simp [hq, hs, ha]

/-- C9: for every list operation, `timeframe="upcoming"` contributes
`start_date>T`, `"in-progress"` contributes `start_date<T^end_date>T`, and
`"completed"` contributes `end_date<T`; the field filters, the timeframe
fragment and the extra query string, in that order, are joined with `^` into
the single `sysparm_query`; and the request parameter dict carries
`sysparm_limit`, `sysparm_offset` and `sysparm_display_value=true`. -/
theorem list_query_construction (pe : ListEpicsParams) (ps : ListStoriesParams)
    (pp : ListProjectsParams) (pt : ListScrumTasksParams) (now : String)
    (limit offset : Option Int) (query : String) :
    (timeframeParts (some "upcoming") now = ["start_date>" ++ now] ∧
     timeframeParts (some "in-progress") now =
       ["start_date<" ++ now ++ "^end_date>" ++ now] ∧
     timeframeParts (some "completed") now = ["end_date<" ++ now]) ∧
    buildEpicListQuery pe now = String.intercalate "^"
      ((if strTruthy pe.priority then ["priority=" ++ pe.priority.getD ""]
        else []) ++
       (if strTruthy pe.assignment_group then
         ["assignment_group=" ++ pe.assignment_group.getD ""] else []) ++
       timeframeParts pe.timeframe now ++
       (if strTruthy pe.query then [pe.query.getD ""] else [])) ∧
    buildStoryListQuery ps now = String.intercalate "^"
      ((if strTruthy ps.state then ["state=" ++ ps.state.getD ""] else []) ++
       (if strTruthy ps.assignment_group then
         ["assignment_group=" ++ ps.assignment_group.getD ""] else []) ++
       timeframeParts ps.timeframe now ++
       (if strTruthy ps.query then [ps.query.getD ""] else [])) ∧
    buildProjectListQuery pp now = String.intercalate "^"
      ((if strTruthy pp.state then ["state=" ++ pp.state.getD ""] else []) ++
       (if strTruthy pp.assignment_group then
         ["assignment_group=" ++ pp.assignment_group.getD ""] else []) ++
       timeframeParts pp.timeframe now ++
       (if strTruthy pp.query then [pp.query.getD ""] else [])) ∧
    buildScrumTaskListQuery pt now = String.intercalate "^"
      ((if strTruthy pt.state then ["state=" ++ pt.state.getD ""] else []) ++
       (if strTruthy pt.assignment_group then
         ["assignment_group=" ++ pt.assignment_group.getD ""] else []) ++
       timeframeParts pt.timeframe now ++
       (if strTruthy pt.query then [pt.query.getD ""] else [])) ∧
    lookupKey (listRequestParams limit offset query) "sysparm_query" =
      some (.vStr query) ∧
    lookupKey (listRequestParams limit offset query) "sysparm_display_value" =
      some (.vStr "true") ∧
    lookupKey (listRequestParams limit offset query) "sysparm_limit" =
      some (pvOfOptInt limit) ∧
    lookupKey (listRequestParams limit offset query) "sysparm_offset" =
      some (pvOfOptInt offset) := by
  refine ⟨⟨?_, ?_, ?_⟩, ?_, ?_, ?_, ?_, ?_, ?_, ?_, ?_⟩
  · rw [timeframeParts_eq]
    simp
  · rw [timeframeParts_eq]
    simp
  · rw [timeframeParts_eq]
    simp
  · rw [buildEpicListQuery, joinQueryParts_eq, epicQueryParts_eq]
  · rw [buildStoryListQuery, joinQueryParts_eq, storyQueryParts_eq]
  · rw [buildProjectListQuery, joinQueryParts_eq, projectQueryParts_eq]
  · rw [buildScrumTaskListQuery, joinQueryParts_eq, scrumTaskQueryParts_eq]
  · rfl
  · rfl
  · rfl
  · rfl

/-- Membership of a key after `addIfStr`. -/
theorem hasKey_addIfStr (d : PyDict) (k : String) (v : Option String)
    (k' : String) :
    hasKey (addIfStr d k v) k' = (hasKey d k' || (strTruthy v && (k == k'))) := by
  unfold addIfStr
  cases h : strTruthy v <;> simp [h, hasKey]

/-- Membership of a key after `addIfInt`. -/
theorem hasKey_addIfInt (d : PyDict) (k : String) (v : Option Int)
    (k' : String) :
    hasKey (addIfInt d k v) k' = (hasKey d k' || (intTruthy v && (k == k'))) := by
  unfold addIfInt
  cases h : intTruthy v <;> simp [h, hasKey]

/-- C10 (corrected): across all nine create/update payload builders, every
optional field the operation forwards appears in the outgoing payload exactly
when its validated value is truthy, and a falsy value (`""`, or `0` for
integer fields such as `story_points`) produces the same payload as an absent
one; required fields are always present; but `create_epic` and `update_epic`
never forward the optional `state` field at all, even when truthy (see the
counterexample). -/
theorem optional_field_truthiness (p : UpdateStoryParams)
    (q : CreateEpicParams) (ue : UpdateEpicParams) (cs : CreateStoryParams)
    (sd : CreateStoryDependencyParams) (cp : CreateProjectParams)
    (up : UpdateProjectParams) (ct : CreateScrumTaskParams)
    (ut : UpdateScrumTaskParams) :
    (hasKey (buildUpdateStoryData p) "short_description" =
      strTruthy p.short_description) ∧
    (hasKey (buildUpdateStoryData p) "acceptance_criteria" =
      strTruthy p.acceptance_criteria) ∧
    (hasKey (buildUpdateStoryData p) "description" =
      strTruthy p.description) ∧
    (hasKey (buildUpdateStoryData p) "state" = strTruthy p.state) ∧
    (hasKey (buildUpdateStoryData p) "assignment_group" =
      strTruthy p.assignment_group) ∧
    (hasKey (buildUpdateStoryData p) "story_points" =
      intTruthy p.story_points) ∧
    (hasKey (buildUpdateStoryData p) "epic" = strTruthy p.epic) ∧
    (hasKey (buildUpdateStoryData p) "project" = strTruthy p.project) ∧
    (hasKey (buildUpdateStoryData p) "assigned_to" =
      strTruthy p.assigned_to) ∧
    (hasKey (buildUpdateStoryData p) "work_notes" =
      strTruthy p.work_notes) ∧
    (buildUpdateStoryData { p with story_points := some 0 } =
      buildUpdateStoryData { p with story_points := none }) ∧
    (buildUpdateStoryData { p with short_description := some "" } =
      buildUpdateStoryData { p with short_description := none }) ∧
    (hasKey (buildCreateEpicData q) "short_description" = true) ∧
    (hasKey (buildCreateEpicData q) "description" = strTruthy q.description) ∧
    (hasKey (buildCreateEpicData q) "priority" = strTruthy q.priority) ∧
    (hasKey (buildCreateEpicData q) "assignment_group" =
      strTruthy q.assignment_group) ∧
    (hasKey (buildCreateEpicData q) "assigned_to" =
      strTruthy q.assigned_to) ∧
    (hasKey (buildCreateEpicData q) "work_notes" = strTruthy q.work_notes) ∧
    (hasKey (buildCreateEpicData q) "state" = false) ∧
    (hasKey (buildUpdateEpicData ue) "short_description" =
      strTruthy ue.short_description) ∧
    (hasKey (buildUpdateEpicData ue) "description" =
      strTruthy ue.description) ∧
    (hasKey (buildUpdateEpicData ue) "priority" = strTruthy ue.priority) ∧
    (hasKey (buildUpdateEpicData ue) "assignment_group" =
      strTruthy ue.assignment_group) ∧
    (hasKey (buildUpdateEpicData ue) "assigned_to" =
      strTruthy ue.assigned_to) ∧
    (hasKey (buildUpdateEpicData ue) "work_notes" =
      strTruthy ue.work_notes) ∧
    (hasKey (buildUpdateEpicData ue) "state" = false) ∧
    (hasKey (buildCreateStoryData cs) "short_description" = true) ∧
    (hasKey (buildCreateStoryData cs) "acceptance_criteria" = true) ∧
    (hasKey (buildCreateStoryData cs) "description" =
      strTruthy cs.description) ∧
    (hasKey (buildCreateStoryData cs) "state" = strTruthy cs.state) ∧
    (hasKey (buildCreateStoryData cs) "assignment_group" =
      strTruthy cs.assignment_group) ∧
    (hasKey (buildCreateStoryData cs) "story_points" =
      intTruthy cs.story_points) ∧
    (hasKey (buildCreateStoryData cs) "assigned_to" =
      strTruthy cs.assigned_to) ∧
    (hasKey (buildCreateStoryData cs) "epic" = strTruthy cs.epic) ∧
    (hasKey (buildCreateStoryData cs) "project" = strTruthy cs.project) ∧
    (hasKey (buildCreateStoryData cs) "work_notes" =
      strTruthy cs.work_notes) ∧
    (hasKey (buildCreateStoryDependencyData sd) "dependent_story" = true) ∧
    (hasKey (buildCreateStoryDependencyData sd) "prerequisite_story" =
      true) ∧
    (hasKey (buildCreateProjectData cp) "short_description" = true) ∧
    (hasKey (buildCreateProjectData cp) "description" =
      strTruthy cp.description) ∧
    (hasKey (buildCreateProjectData cp) "status" = strTruthy cp.status) ∧
    (hasKey (buildCreateProjectData cp) "state" = strTruthy cp.state) ∧
    (hasKey (buildCreateProjectData cp) "assignment_group" =
      strTruthy cp.assignment_group) ∧
    (hasKey (buildCreateProjectData cp) "percentage_complete" =
      intTruthy cp.percentage_complete) ∧
    (hasKey (buildCreateProjectData cp) "assigned_to" =
      strTruthy cp.assigned_to) ∧
    (hasKey (buildCreateProjectData cp) "project_manager" =
      strTruthy cp.project_manager) ∧
    (hasKey (buildCreateProjectData cp) "start_date" =
      strTruthy cp.start_date) ∧
    (hasKey (buildCreateProjectData cp) "end_date" =
      strTruthy cp.end_date) ∧
    (hasKey (buildUpdateProjectData up) "short_description" =
      strTruthy up.short_description) ∧
    (hasKey (buildUpdateProjectData up) "description" =
      strTruthy up.description) ∧
    (hasKey (buildUpdateProjectData up) "status" = strTruthy up.status) ∧
    (hasKey (buildUpdateProjectData up) "state" = strTruthy up.state) ∧
    (hasKey (buildUpdateProjectData up) "assignment_group" =
      strTruthy up.assignment_group) ∧
    (hasKey (buildUpdateProjectData up) "percentage_complete" =
      intTruthy up.percentage_complete) ∧
    (hasKey (buildUpdateProjectData up) "assigned_to" =
      strTruthy up.assigned_to) ∧
    (hasKey (buildUpdateProjectData up) "project_manager" =
      strTruthy up.project_manager) ∧
    (hasKey (buildUpdateProjectData up) "start_date" =
      strTruthy up.start_date) ∧
    (hasKey (buildUpdateProjectData up) "end_date" =
      strTruthy up.end_date) ∧
    (hasKey (buildCreateScrumTaskData ct) "story" = true) ∧
    (hasKey (buildCreateScrumTaskData ct) "short_description" = true) ∧
    (hasKey (buildCreateScrumTaskData ct) "priority" =
      strTruthy ct.priority) ∧
    (hasKey (buildCreateScrumTaskData ct) "planned_hours" =
      intTruthy ct.planned_hours) ∧
    (hasKey (buildCreateScrumTaskData ct) "remaining_hours" =
      intTruthy ct.remaining_hours) ∧
    (hasKey (buildCreateScrumTaskData ct) "hours" = intTruthy ct.hours) ∧
    (hasKey (buildCreateScrumTaskData ct) "description" =
      strTruthy ct.description) ∧
    (hasKey (buildCreateScrumTaskData ct) "type" = strTruthy ct.type) ∧
    (hasKey (buildCreateScrumTaskData ct) "state" = strTruthy ct.state) ∧
    (hasKey (buildCreateScrumTaskData ct) "assignment_group" =
      strTruthy ct.assignment_group) ∧
    (hasKey (buildCreateScrumTaskData ct) "assigned_to" =
      strTruthy ct.assigned_to) ∧
    (hasKey (buildCreateScrumTaskData ct) "work_notes" =
      strTruthy ct.work_notes) ∧
    (hasKey (buildUpdateScrumTaskData ut) "short_description" =
      strTruthy ut.short_description) ∧
    (hasKey (buildUpdateScrumTaskData ut) "priority" =
      strTruthy ut.priority) ∧
    (hasKey (buildUpdateScrumTaskData ut) "planned_hours" =
      intTruthy ut.planned_hours) ∧
    (hasKey (buildUpdateScrumTaskData ut) "remaining_hours" =
      intTruthy ut.remaining_hours) ∧
    (hasKey (buildUpdateScrumTaskData ut) "hours" = intTruthy ut.hours) ∧
    (hasKey (buildUpdateScrumTaskData ut) "description" =
      strTruthy ut.description) ∧
    (hasKey (buildUpdateScrumTaskData ut) "type" = strTruthy ut.type) ∧
    (hasKey (buildUpdateScrumTaskData ut) "state" = strTruthy ut.state) ∧
    (hasKey (buildUpdateScrumTaskData ut) "assignment_group" =
      strTruthy ut.assignment_group) ∧
    (hasKey (buildUpdateScrumTaskData ut) "assigned_to" =
      strTruthy ut.assigned_to) ∧
    (hasKey (buildUpdateScrumTaskData ut) "work_notes" =
      strTruthy ut.work_notes) := by
  repeat' apply And.intro
  all_goals
    first
    | (simp only [buildUpdateStoryData, buildCreateEpicData,
         buildUpdateEpicData, buildCreateStoryData,
         buildCreateStoryDependencyData, buildCreateProjectData,
         buildUpdateProjectData, buildCreateScrumTaskData,
         buildUpdateScrumTaskData, hasKey_addIfStr, hasKey_addIfInt]
       simp [hasKey]
       done)
    | (simp only [buildUpdateStoryData]
       rw [show addIfStr ([] : PyDict) "short_description" (some "") =
             addIfStr ([] : PyDict) "short_description" none from rfl]
       done)
    | (simp [buildUpdateStoryData, addIfInt, intTruthy]
       done)

/-- Counterexample for C10 as stated: creating an epic with a truthy optional
`state` sends a payload without `state` — so a truthy optional field is not
always included. -/
theorem create_epic_state_dropped_counterexample :
    strTruthy (some "1") = true ∧
    validateCreateEpicParams [("short_description", .vStr "x"),
        ("state", .vStr "1")] =
      .ok ⟨"x", none, none, some "1", none, none, none⟩ ∧
    buildCreateEpicData ⟨"x", none, none, some "1", none, none, none⟩ =
      [("short_description", .vStr "x")] ∧
    hasKey (buildCreateEpicData ⟨"x", none, none, some "1", none, none, none⟩)
      "state" = false := by
  refine ⟨by decide, rfl, rfl, by decide⟩

/-- The failure half of the Result Envelope invariant: a failed envelope has
a message and carries no entity payload. -/
def failureShapeInv (env : Envelope) : Prop :=
  env.success = false → env.message.isSome = true ∧ env.payload = none

/-- The list-success half: a successful list envelope's `count` and `total`
both equal the length of the returned entity payload. -/
def listCountInv (env : Envelope) : Prop :=
  env.success = true → ∃ k v n, env.payload = some (k, v) ∧
    pyLen v = some n ∧ env.count = some n ∧ env.total = some n

/-- Every envelope a create/update operation returns satisfies the failure
invariant. -/
theorem writeOp_ok_inv {α : Type} (ws : WriteSpec α) (am sc : Collab)
    (p : RawParams) (t : Transport) (env : Envelope)
    (h : writeOp ws am sc p t = .ok env) : failureShapeInv env := by
  unfold writeOp at h
  repeat' (first | split at h | dsimp only at h)
  all_goals try exact Except.noConfusion h
  all_goals injection h with h2
  all_goals subst h2
  all_goals intro hs
  all_goals simp [failEnv] at hs ⊢

/-- Every envelope a delete operation returns satisfies the failure
invariant. -/
theorem deleteOp_ok_inv {α : Type} (ds : DeleteSpec α) (am sc : Collab)
    (p : RawParams) (t : Transport) (env : Envelope)
    (h : deleteOp ds am sc p t = .ok env) : failureShapeInv env := by
  unfold deleteOp at h
  repeat' (first | split at h | dsimp only at h)
  all_goals try exact Except.noConfusion h
  all_goals injection h with h2
  all_goals subst h2
  all_goals intro hs
  all_goals simp [failEnv] at hs ⊢

/-- Every envelope a list operation returns satisfies both halves of the
invariant. -/
theorem listOp_ok_inv {α : Type} (ls : ListSpec α) (am sc : Collab)
    (p : RawParams) (now : String) (t : Transport) (env : Envelope)
    (h : listOp ls am sc p now t = .ok env) :
    failureShapeInv env ∧ listCountInv env := by
  unfold listOp at h
  repeat' (first | split at h | dsimp only at h)
  all_goals try exact Except.noConfusion h
  all_goals injection h with h2
  all_goals subst h2
  all_goals constructor
  all_goals intro hs
  all_goals simp [failEnv] at hs ⊢
  all_goals exact ⟨ls.entityKey, _, ⟨rfl, rfl⟩, by assumption⟩

/-- C5: every Result Envelope any of the fifteen tool operations returns
satisfies the envelope invariant: `success=false` implies a message is
present and no entity payload is present; and a successful list envelope's
`count` and `total` both equal the length of the returned entity list. -/
theorem result_envelope_invariants (am sc : Collab) (p : RawParams)
    (now : String) (t : Transport) (env : Envelope) :
    (create_epic am sc p t = .ok env → failureShapeInv env) ∧
    (update_epic am sc p t = .ok env → failureShapeInv env) ∧
    (list_epics am sc p now t = .ok env →
      failureShapeInv env ∧ listCountInv env) ∧
    (create_story am sc p t = .ok env → failureShapeInv env) ∧
    (update_story am sc p t = .ok env → failureShapeInv env) ∧
    (list_stories am sc p now t = .ok env →
      failureShapeInv env ∧ listCountInv env) ∧
    (list_story_dependencies am sc p now t = .ok env →
      failureShapeInv env ∧ listCountInv env) ∧
    (create_story_dependency am sc p t = .ok env → failureShapeInv env) ∧
    (delete_story_dependency am sc p t = .ok env → failureShapeInv env) ∧
    (create_project am sc p t = .ok env → failureShapeInv env) ∧
    (update_project am sc p t = .ok env → failureShapeInv env) ∧
    (list_projects am sc p now t = .ok env →
      failureShapeInv env ∧ listCountInv env) ∧
    (create_scrum_task am sc p t = .ok env → failureShapeInv env) ∧
    (update_scrum_task am sc p t = .ok env → failureShapeInv env) ∧
    (list_scrum_tasks am sc p now t = .ok env →
      failureShapeInv env ∧ listCountInv env) := by
  refine ⟨?_, ?_, ?_, ?_, ?_, ?_, ?_, ?_, ?_, ?_, ?_, ?_, ?_, ?_, ?_⟩ <;>
    intro h
  · exact writeOp_ok_inv _ am sc p t env h
  · exact writeOp_ok_inv _ am sc p t env h
  · exact listOp_ok_inv _ am sc p now t env h
  · exact writeOp_ok_inv _ am sc p t env h
  · exact writeOp_ok_inv _ am sc p t env h
  · exact listOp_ok_inv _ am sc p now t env h
  · exact listOp_ok_inv _ am sc p now t env h
  · exact writeOp_ok_inv _ am sc p t env h
  · exact deleteOp_ok_inv _ am sc p t env h
  · exact writeOp_ok_inv _ sc am p t env h
  · exact writeOp_ok_inv _ sc am p t env h
  · exact listOp_ok_inv _ sc am p now t env h
  · exact writeOp_ok_inv _ am sc p t env h
  · exact writeOp_ok_inv _ am sc p t env h
  · exact listOp_ok_inv _ am sc p now t env h

/-- Witness for C5: a concrete `list_epics` call returning one record has
`count = total = 1` and its payload under `epics`, and a concrete failed
`create_epic` call has a message and no payload. -/
theorem result_envelope_invariants_witness :
    (∃ k v n,
      (Envelope.mk true none (some ("epics", .vList [.vDict []])) (some 1)
        (some 1)).payload = some (k, v) ∧ pyLen v = some n ∧
      (Envelope.mk true none (some ("epics", .vList [.vDict []])) (some 1)
        (some 1)).count = some n ∧
      (Envelope.mk true none (some ("epics", .vList [.vDict []])) (some 1)
        (some 1)).total = some n) ∧
    ((failEnv "Missing required parameter 'short_description'").message.isSome
        = true ∧
      (failEnv "Missing required parameter 'short_description'").payload
        = none) := by
  constructor
  · have h := (result_envelope_invariants
      ⟨some (some "https://dev1.service-now.com"), some (.ok [("a", "b")])⟩
      ⟨some (some "https://dev1.service-now.com"), none⟩
      (.dict []) "2026-01-01 00:00:00"
      (fun _ => .ok [("result", .vList [.vDict []])])
      ⟨true, none, some ("epics", .vList [.vDict []]), some 1, some 1⟩).2.2.1
    exact (h rfl).2 rfl
  · have h := (result_envelope_invariants
      ⟨some (some "https://dev1.service-now.com"), some (.ok [("a", "b")])⟩
      ⟨some (some "https://dev1.service-now.com"), none⟩
      (.dict []) "2026-01-01 00:00:00"
      (fun _ => .ok [("result", .vList [.vDict []])])
      (failEnv "Missing required parameter 'short_description'")).1
    exact h rfl rfl

/-- An `AuthManager` instance seen as a tool collaborator: it exposes
`instance_url` and a `get_headers` whose call behaves as `getHeaders`
(returning headers or raising). -/
def authManagerCollab (cfg : AuthConfig) (st : TokenState)
    (iu : Option String) (t : TokenRequest → TokenResponse) : Collab :=
  ⟨some iu, some ((getHeaders cfg st iu t).map Prod.fst)⟩

/-- Counterexample for C4 as stated: with a Basic-mode configuration whose
basic payload is missing, the collaborator's `get_headers` raises
`ValueError("Basic auth configuration is required")`; the tool function calls
it outside its try/except, so this configuration error escapes `create_epic`
as an exception instead of being returned as a failure envelope. -/
theorem config_error_escapes_counterexample :
    create_epic
        (authManagerCollab ⟨.basic, none, none, none⟩ ⟨none, none⟩
          (some "https://dev1.service-now.com") (fun _ => ⟨500, none, none⟩))
        ⟨some (some "https://dev1.service-now.com"), none⟩
        (.dict [("short_description", .vStr "x")])
        (fun _ => .ok [("result", .vDict [])]) =
      .error "Basic auth configuration is required" := rfl

/-- C4 (corrected): in every tool operation, input-shape, missing-field and
validation errors (any normalization failure), a missing instance URL, and a
missing (or falsy) `get_headers` capability are all converted into the
Result Envelope failure shape and returned.  (A configuration error raised
*inside* a collaborator's `get_headers` — e.g. a missing auth payload — is
not: it escapes the tool as an exception, see the counterexample.)  Every
tool operation is one of `writeOp`, `listOp`, `deleteOp` applied to its
spec. -/
theorem local_errors_become_envelopes {α β γ : Type} (am sc : Collab)
    (p : RawParams) (now : String) (t : Transport) (ws : WriteSpec α)
    (ls : ListSpec β) (ds : DeleteSpec γ) :
    (∀ m, unwrapAndValidate p ws.validate ws.requiredFields = .fail m →
      writeOp ws am sc p t = .ok (failEnv m)) ∧
    (∀ vp, unwrapAndValidate p ws.validate ws.requiredFields = .ok vp →
      strTruthy (getInstanceUrl am sc) = false →
      writeOp ws am sc p t = .ok (failEnv noInstanceUrlMsg)) ∧
    (∀ vp, unwrapAndValidate p ws.validate ws.requiredFields = .ok vp →
      strTruthy (getInstanceUrl am sc) = true →
      (callGetHeaders am sc = .ok none ∨ callGetHeaders am sc = .ok (some [])) →
      writeOp ws am sc p t = .ok (failEnv noGetHeadersMsg)) ∧
    (∀ m, unwrapAndValidate p ls.validate [] = .fail m →
      listOp ls am sc p now t = .ok (failEnv m)) ∧
    (∀ vp, unwrapAndValidate p ls.validate [] = .ok vp →
      strTruthy (getInstanceUrl am sc) = false →
      listOp ls am sc p now t = .ok (failEnv noInstanceUrlMsg)) ∧
    (∀ vp, unwrapAndValidate p ls.validate [] = .ok vp →
      strTruthy (getInstanceUrl am sc) = true →
      (callGetHeaders am sc = .ok none ∨ callGetHeaders am sc = .ok (some [])) →
      listOp ls am sc p now t = .ok (failEnv noGetHeadersMsg)) ∧
    (∀ m, unwrapAndValidate p ds.validate ds.requiredFields = .fail m →
      deleteOp ds am sc p t = .ok (failEnv m)) ∧
    (∀ vp, unwrapAndValidate p ds.validate ds.requiredFields = .ok vp →
      strTruthy (getInstanceUrl am sc) = false →
      deleteOp ds am sc p t = .ok (failEnv noInstanceUrlMsg)) ∧
    (∀ vp, unwrapAndValidate p ds.validate ds.requiredFields = .ok vp →
      strTruthy (getInstanceUrl am sc) = true →
      (callGetHeaders am sc = .ok none ∨ callGetHeaders am sc = .ok (some [])) →
      deleteOp ds am sc p t = .ok (failEnv noGetHeadersMsg)) := by
  refine ⟨?_, ?_, ?_, ?_, ?_, ?_, ?_, ?_, ?_⟩
  · intro m h
    simp [writeOp, h]
  · intro vp h hu
    simp [writeOp, h, hu]
  · intro vp h hu hc
    rcases hc with hc | hc <;> simp [writeOp, h, hu, hc]
  · intro m h
    simp [listOp, h]
  · intro vp h hu
    simp [listOp, h, hu]
  · intro vp h hu hc
    rcases hc with hc | hc <;> simp [listOp, h, hu, hc]
  · intro m h
    simp [deleteOp, h]
  · intro vp h hu
    simp [deleteOp, h, hu]
  · intro vp h hu hc
    rcases hc with hc | hc <;> simp [deleteOp, h, hu, hc]

/-- Witness for C4's corrected statement: a concrete `create_epic` call with
a missing required field returns the failure envelope, and a concrete
`list_epics` call whose collaborators expose no `get_headers` returns the
missing-capability envelope. -/
theorem local_errors_become_envelopes_witness :
    create_epic ⟨none, none⟩ ⟨none, none⟩ (.dict [])
        (fun _ => .requestError "boom") =
      .ok (failEnv "Missing required parameter 'short_description'") ∧
    list_epics ⟨some (some "https://dev1.service-now.com"), none⟩
        ⟨none, none⟩ (.dict []) "2026-01-01 00:00:00"
        (fun _ => .requestError "boom") =
      .ok (failEnv noGetHeadersMsg) := by
  constructor
  · exact (local_errors_become_envelopes ⟨none, none⟩ ⟨none, none⟩ (.dict [])
      "2026-01-01 00:00:00" (fun _ => .requestError "boom")
      { validate := validateCreateEpicParams
        requiredFields := ["short_description"]
        table := "rm_epic"
        pathId := fun _ => ""
        method := "POST"
        buildData := buildCreateEpicData
        entityKey := "epic"
        successMessage := "Epic created successfully"
        errLabel := "Error creating epic: " }
      { validate := validateListEpicsParams
        table := "rm_epic"
        entityKey := "epics"
        buildQuery := buildEpicListQuery
        limitOf := fun vp => vp.limit
        offsetOf := fun vp => vp.offset
        errLabel := "Error listing epics: " }
      { validate := validateDeleteStoryDependencyParams
        requiredFields := ["dependency_id"]
        table := "m2m_story_dependencies"
        pathId := fun vp => "/" ++ vp.dependency_id
        successMessage := "Story dependency deleted successfully"
        errLabel := "Error deleting story dependency: " }).1
      "Missing required parameter 'short_description'" (by decide)
  · exact (local_errors_become_envelopes
      ⟨some (some "https://dev1.service-now.com"), none⟩ ⟨none, none⟩
      (.dict []) "2026-01-01 00:00:00" (fun _ => .requestError "boom")
      { validate := validateCreateEpicParams
        requiredFields := ["short_description"]
        table := "rm_epic"
        pathId := fun _ => ""
        method := "POST"
        buildData := buildCreateEpicData
        entityKey := "epic"
        successMessage := "Epic created successfully"
        errLabel := "Error creating epic: " }
      { validate := validateListEpicsParams
        table := "rm_epic"
        entityKey := "epics"
        buildQuery := buildEpicListQuery
        limitOf := fun vp => vp.limit
        offsetOf := fun vp => vp.offset
        errLabel := "Error listing epics: " }
      { validate := validateDeleteStoryDependencyParams
        requiredFields := ["dependency_id"]
        table := "m2m_story_dependencies"
        pathId := fun vp => "/" ++ vp.dependency_id
        successMessage := "Story dependency deleted successfully"
        errLabel := "Error deleting story dependency: " }).2.2.2.2.2.1
      ⟨some 10, some 0, none, none, none, none⟩ (by decide) (by decide)
      (.inl rfl)

end SnowMCP
